import Mathlib

/-!
# nPM6001 sample shell commands

A shallow embedding of `samples/pmic/npm6001/src/sample_shell_cmds.c`.

* An argument vector is a list of tokens, `argc` is its length.
* The driver (`drv_npm6001_*`) and the bus (`i2c_*`) are outside the file.  A
  handler records every call it makes to them, in order, and the status each
  call returns is read from `rc : Call → Nat → Int`: `rc c k` is what the call
  `c` returns when `k` calls went before it in the invocation, so every
  combination of return codes is some `rc`.
* `shell_print`, `shell_warn`, `shell_error` and `shell_help` are recorded as
  messages: severity, format string and format arguments.
* `strtol` follows the C library: white space, sign, base detection, digits,
  clamping to the range of `long`.
-/

namespace Npm6001Shell

/-! ## C library -/

/-- The value of `EINVAL` in `errno.h`. -/
def EINVAL : Int := 22

/-- The value of `ENOEXEC` in `errno.h`. -/
def ENOEXEC : Int := 8

/-- The largest `long` (32 bits on the Arm Cortex-M targets of the sample). -/
def LONG_MAX : Int := 2147483647

/-- The smallest `long`. -/
def LONG_MIN : Int := -2147483648

/-- C `isspace` in the "C" locale. -/
def isspace (c : Char) : Bool :=
  c == ' ' || c == '\t' || c == '\n' || c == '\x0b' || c == '\x0c' || c == '\r'

/-- The value of a character as a digit; 36 for a character that is no digit in any base. -/
def digit_value (c : Char) : Nat :=
  if '0' ≤ c ∧ c ≤ '9' then c.toNat - 48
  else if 'a' ≤ c ∧ c ≤ 'z' then c.toNat - 97 + 10
  else if 'A' ≤ c ∧ c ≤ 'Z' then c.toNat - 65 + 10
  else 36

/-- Drops the leading white space of a string. -/
def skip_space : List Char → List Char
  | [] => []
  | c :: cs => if isspace c then skip_space cs else c :: cs

/-- Reads the longest run of digits of the base and accumulates its value; a string
that starts with no digit gives the accumulator back, 0 at the start. -/
def accumulate (base : Nat) : List Char → Nat → Nat
  | [], acc => acc
  | c :: cs, acc =>
    if digit_value c < base then accumulate base cs (acc * base + digit_value c) else acc

/-- The magnitude that `strtol` reads after the sign: base detection (`0x`/`0X` for
base 16, a leading `0` for base 8, else base 10 when `base` is 0), then the digits. -/
def magnitude (base : Nat) (s : List Char) : Nat :=
  match s with
  | c :: x :: rest =>
    if (base = 0 ∨ base = 16) ∧ c = '0' ∧ (x = 'x' ∨ x = 'X') then accumulate 16 rest 0
    else if base = 0 then (if c = '0' then accumulate 8 s 0 else accumulate 10 s 0)
    else accumulate base s 0
  | _ =>
    if base = 0 then (if s.head? = some '0' then accumulate 8 s 0 else accumulate 10 s 0)
    else accumulate base s 0

/-- The result of `strtol` from sign and magnitude: out-of-range values are clamped. -/
def clamp_long (neg : Bool) (m : Nat) : Int :=
  if neg then (if -(m : Int) < LONG_MIN then LONG_MIN else -(m : Int))
  else (if LONG_MAX < (m : Int) then LONG_MAX else (m : Int))

/-- C `strtol (s, NULL, base)` on the characters of a string. -/
def strtol_chars (s : List Char) (base : Nat) : Int :=
  match skip_space s with
  | [] => 0
  | c :: cs =>
    if c = '-' then clamp_long true (magnitude base cs)
    else if c = '+' then clamp_long false (magnitude base cs)
    else clamp_long false (magnitude base (c :: cs))

/-- C `strtol (s, NULL, base)`. -/
def strtol (s : String) (base : Nat) : Int :=
  strtol_chars s.data base

/-- Conversion of a `long` to `uint8_t`. -/
def to_uint8 (x : Int) : Nat := (x % 256).toNat

/-- Conversion of a `long` to `uint16_t`. -/
def to_uint16 (x : Int) : Nat := (x % 65536).toNat

/-- Conversion of a `long` to `uint32_t`. -/
def to_uint32 (x : Int) : Nat := (x % 4294967296).toNat

/-! ## Driver interface (`drv_npm6001.h`) -/

/-- The `enum drv_npm6001_vreg`. -/
inductive drv_npm6001_vreg where
  | DRV_NPM6001_DCDC0
  | DRV_NPM6001_DCDC1
  | DRV_NPM6001_DCDC2
  | DRV_NPM6001_DCDC3
  | DRV_NPM6001_LDO0
  | DRV_NPM6001_LDO1
  deriving DecidableEq, Repr

/-- The `enum drv_npm6001_vreg_mode`. -/
inductive drv_npm6001_vreg_mode where
  | DRV_NPM6001_MODE_ULP
  | DRV_NPM6001_MODE_PWM
  deriving DecidableEq, Repr

/-- The `enum drv_npm6001_int`. -/
inductive drv_npm6001_int where
  | DRV_NPM6001_INT_THERMAL_WARNING
  | DRV_NPM6001_INT_DCDC0_OVERCURRENT
  | DRV_NPM6001_INT_DCDC1_OVERCURRENT
  | DRV_NPM6001_INT_DCDC2_OVERCURRENT
  | DRV_NPM6001_INT_DCDC3_OVERCURRENT
  deriving DecidableEq, Repr

open drv_npm6001_vreg drv_npm6001_vreg_mode drv_npm6001_int

/-- Modelled from the spec: the macro `DRV_NPM6001_DCDC0_MINV` of `drv_npm6001.h`, a header that is
not among the sources; the value is the lower limit in the help text of line 370, the one
the specification uses for DCDC0. -/
def DRV_NPM6001_DCDC0_MINV : Nat := 1800

/-- Modelled from the spec: the macro `DRV_NPM6001_DCDC0_MAXV` of `drv_npm6001.h`, a header that is
not among the sources; the value is the upper limit in the help text of line 370, the one
the specification uses for DCDC0. -/
def DRV_NPM6001_DCDC0_MAXV : Nat := 3300

/-- Modelled from the spec: the macro `DRV_NPM6001_DCDC1_MINV` of `drv_npm6001.h`, a header that is
not among the sources; the value is the lower limit in the help text of line 371, the one
the specification uses for DCDC1. -/
def DRV_NPM6001_DCDC1_MINV : Nat := 700

/-- Modelled from the spec: the macro `DRV_NPM6001_DCDC1_MAXV` of `drv_npm6001.h`, a header that is
not among the sources; the value is the upper limit in the help text of line 371, the one
the specification uses for DCDC1. -/
def DRV_NPM6001_DCDC1_MAXV : Nat := 1400

/-- Modelled from the spec: the macro `DRV_NPM6001_DCDC2_MINV` of `drv_npm6001.h`, a header that is
not among the sources; the value is the lower limit in the help text of line 372, the one
the specification uses for DCDC2. -/
def DRV_NPM6001_DCDC2_MINV : Nat := 1200

/-- Modelled from the spec: the macro `DRV_NPM6001_DCDC2_MAXV` of `drv_npm6001.h`, a header that is
not among the sources; the value is the upper limit in the help text of line 372, the one
the specification uses for DCDC2. -/
def DRV_NPM6001_DCDC2_MAXV : Nat := 1400

/-- Modelled from the spec: the macro `DRV_NPM6001_DCDC3_MINV` of `drv_npm6001.h`, a header that is
not among the sources; the value is the lower limit in the help text of line 373, the one
the specification uses for DCDC3. -/
def DRV_NPM6001_DCDC3_MINV : Nat := 500

/-- Modelled from the spec: the macro `DRV_NPM6001_DCDC3_MAXV` of `drv_npm6001.h`, a header that is
not among the sources; the value is the upper limit in the help text of line 373, the one
the specification uses for DCDC3. -/
def DRV_NPM6001_DCDC3_MAXV : Nat := 3300

/-- Modelled from the spec: the macro `DRV_NPM6001_LDO0_MINV` of `drv_npm6001.h`, a header that is
not among the sources; the value is the lower limit in the help text of line 374, the one
the specification uses for LDO0. -/
def DRV_NPM6001_LDO0_MINV : Nat := 1800

/-- Modelled from the spec: the macro `DRV_NPM6001_LDO0_MAXV` of `drv_npm6001.h`, a header that is
not among the sources; the value is the upper limit in the help text of line 374, the one
the specification uses for LDO0. -/
def DRV_NPM6001_LDO0_MAXV : Nat := 3300

/-- What the file takes from headers that are not among the sources and that no help
text gives: the two limits of LDO1 and the offsets of the fields of `NRF_DIGITAL_Type`. -/
structure Header where
  DRV_NPM6001_LDO1_MINV : Nat
  DRV_NPM6001_LDO1_MAXV : Nat
  offsetof : String → Nat

/-- A call that leaves the file: a driver function or a bus transaction, with its
arguments.  `i2c_write_read a` is the one-byte read of register `a` made by `twi_read`,
`i2c_transfer a v` the one-byte write of `v` to register `a` made by `twi_write`. -/
inductive Call where
  | drv_npm6001_vreg_dcdc_mode_set (regulator : drv_npm6001_vreg) (mode : drv_npm6001_vreg_mode)
  | drv_npm6001_vreg_disable (regulator : drv_npm6001_vreg)
  | drv_npm6001_vreg_voltage_set (regulator : drv_npm6001_vreg) (voltage : Nat)
  | drv_npm6001_vreg_enable (regulator : drv_npm6001_vreg)
  | drv_npm6001_watchdog_enable (timeout : Nat)
  | drv_npm6001_watchdog_disable
  | drv_npm6001_watchdog_kick
  | drv_npm6001_hibernate (timeout : Nat)
  | drv_npm6001_int_enable (interrupt : drv_npm6001_int)
  | drv_npm6001_int_disable (interrupt : drv_npm6001_int)
  | i2c_write_read (reg_addr : Nat)
  | i2c_transfer (reg_addr : Nat) (reg_val : Nat)
  deriving DecidableEq, Repr

open Call

/-! ## Shell output -/

/-- Severity of a message: `shell_print`, `shell_warn`, `shell_error`, `shell_help`. -/
inductive Level where
  | print
  | warn
  | error
  | help
  deriving DecidableEq, Repr

/-- An argument of a format string: `%s` takes a string, `%d` and `%02X` a number. -/
inductive FmtArg where
  | str (s : String)
  | num (n : Nat)
  deriving DecidableEq, Repr

/-- One message written to the shell. -/
structure Msg where
  level : Level
  fmt : String
  args : List FmtArg
  deriving DecidableEq, Repr

/-- The message of `shell_print (sh, fmt, args...)`. -/
def shell_print (fmt : String) (args : List FmtArg) : Msg := ⟨Level.print, fmt, args⟩

/-- The message of `shell_warn (sh, fmt, args...)`. -/
def shell_warn (fmt : String) (args : List FmtArg) : Msg := ⟨Level.warn, fmt, args⟩

/-- The message of `shell_error (sh, fmt, args...)`. -/
def shell_error (fmt : String) (args : List FmtArg) : Msg := ⟨Level.error, fmt, args⟩

/-- The message of `shell_help (sh)`. -/
def shell_help : Msg := ⟨Level.help, "", []⟩

/-- What a handler has done so far: the messages and the outside calls, oldest first. -/
structure Effects where
  out : List Msg
  calls : List Call
  deriving DecidableEq, Repr

/-- What a handler invocation amounts to: its return value, messages and outside calls. -/
structure Result where
  ret : Int
  out : List Msg
  calls : List Call
  deriving DecidableEq, Repr

/-- Nothing done yet. -/
def Effects.start : Effects := ⟨[], []⟩

/-- Writes a message. -/
def Effects.say (s : Effects) (m : Msg) : Effects := { s with out := s.out ++ [m] }

/-- Makes an outside call: the call is recorded and `rc` gives its status. -/
def Effects.call (s : Effects) (rc : Call → Nat → Int) (c : Call) : Int × Effects :=
  (rc c s.calls.length, { s with calls := s.calls ++ [c] })

/-- The handler returns `r`. -/
def Effects.done (s : Effects) (r : Int) : Result := ⟨r, s.out, s.calls⟩

/-! ## Register access (lines 15-172) -/

/-- The names of `REGISTER_NAME_LIST` (lines 18-74), in order. -/
def REGISTER_NAME_LIST : List String :=
  ["SWREADY", "TASKS_START_DCDC3", "TASKS_START_LDO0", "TASKS_START_LDO1",
   "TASKS_START_THWARN", "TASKS_START_TH_SHUTDN", "TASKS_STOP_DCDC3", "TASKS_STOP_LDO0",
   "TASKS_STOP_LDO1", "TASKS_STOP_THWARN", "TASKS_STOP_THSHUTDN", "TASKS_UPDATE_VOUTPWM",
   "EVENTS_THWARN", "EVENTS_DCDC0OC", "EVENTS_DCDC1OC", "EVENTS_DCDC2OC",
   "EVENTS_DCDC3OC", "INTEN0", "INTENSET0", "INTENCLR0",
   "INTPEND0", "DCDC0VOUTULP", "DCDC0VOUTPWM", "DCDC1VOUTULP",
   "DCDC1VOUTPWM", "DCDC2VOUTULP", "DCDC2VOUTPWM", "DCDC3SELDAC",
   "DCDC3VOUT", "LDO0VOUT", "DCDC0CONFPWMMODE", "DCDC1CONFPWMMODE",
   "DCDC2CONFPWMMODE", "DCDC3CONFPWMMODE", "DCDCMODEPADCONF", "THDYNPOWERUP",
   "PADDRIVESTRENGTH", "WDARMEDVALUE", "WDARMEDSTROBE", "WDTRIGGERVALUE0",
   "WDTRIGGERVALUE1", "WDTRIGGERVALUE2", "WDDATASTROBE", "WDPWRUPVALUE",
   "WDPWRUPSTROBE", "WDKICK", "WDREQPOWERDOWN", "GENIOOUTSET",
   "GENIOOUTCLR", "GENIOIN", "GENIO0CONF", "GENIO1CONF",
   "GENIO2CONF", "LDO0CTRL", "LDO1CTRL", "OVERRIDEPWRUPDCDC"]

/-- The `struct reg_name_addr_pair` (lines 76-79); `addr` is a `uint8_t`. -/
structure reg_name_addr_pair where
  name : String
  addr : Nat
  deriving DecidableEq, Repr

/-- The table `registers` (lines 81-85): one entry per name, its address the offset of the
field of that name, stored in a `uint8_t`. -/
def registers (h : Header) : List reg_name_addr_pair :=
  REGISTER_NAME_LIST.map (fun n => ⟨n, h.offsetof n % 256⟩)

/-- The function `twi_read` (lines 89-103): one `i2c_write_read` of one byte; `rd` is the byte
the bus delivers.  Gives the byte read and the effects. -/
def twi_read (rc : Call → Nat → Int) (rd : Nat) (s : Effects) (reg_addr : Nat) : Nat × Effects :=
  let r := s.call rc (i2c_write_read reg_addr)
  if r.1 ≠ 0 then (rd % 256, r.2.say (shell_error "TWI read error" []))
  else (rd % 256, r.2)

/-- The function `twi_write` (lines 105-117): one `i2c_transfer` carrying address and value. -/
def twi_write (rc : Call → Nat → Int) (s : Effects) (reg_addr reg_val : Nat) : Effects :=
  let r := s.call rc (i2c_transfer reg_addr reg_val)
  if r.1 ≠ 0 then r.2.say (shell_error "TWI write error" []) else r.2

/-- The value of the write argument of `cmd_reg_named` (lines 149-155): base 2 after `0b`
when something follows the `0b`, else `strtol` with base detection; stored in a `uint8_t`. -/
def reg_value (a : String) : Nat :=
  if a.data.take 2 = ['0', 'b'] ∧ a.data.length > 2 then
    to_uint8 (strtol_chars (a.data.drop 2) 2)
  else
    to_uint8 (strtol a 0)

/-- The handler `cmd_reg_named` (lines 119-165). -/
def cmd_reg_named (h : Header) (rc : Call → Nat → Int) (rd : Nat) (argv : List String) : Result :=
  match argv with
  | [] => (Effects.start.say (shell_error "Invalid argument count" [])).done (-ENOEXEC)
  | argv0 :: rest =>
    if argv0 = "reg" then
      ((Effects.start.say (shell_print "Please specify which register to read or write" [])).say
        (shell_print "(hint: use 'tab' key for autocompletion)" [])).done 0
    else
      match (registers h).find? (fun r => argv0 = r.name) with
      | none => (Effects.start.say (shell_warn "Register name not found" [])).done 0
      | some reg =>
        match rest with
        | argv1 :: _ =>
          let reg_val := reg_value argv1
          let s := Effects.start.say
            (shell_print "Writing 0x%02X to %s" [FmtArg.num reg_val, FmtArg.str reg.name])
          (twi_write rc s reg.addr reg_val).done 0
        | [] =>
          let r := twi_read rc rd Effects.start reg.addr
          (r.2.say (shell_print "%s=0x%02X" [FmtArg.str reg.name, FmtArg.num r.1])).done 0

/-! ## Voltage regulators (lines 174-377) -/

/-- The locals of `cmd_vreg` that the argument loop sets (lines 176-184). -/
structure vreg_locals where
  mode : drv_npm6001_vreg_mode
  voltage : Nat
  set_mode : Bool
  set_voltage : Bool
  turn_on : Bool
  turn_off : Bool
  deriving DecidableEq, Repr

/-- The initial values of the locals (lines 176-184). -/
def vreg_locals.init : vreg_locals :=
  ⟨DRV_NPM6001_MODE_ULP, 0, false, false, false, false⟩

/-- The regulator that `argv[0]` names (lines 195-211), `none` for the final `else`. -/
def vreg_of_name (a : String) : Option drv_npm6001_vreg :=
  if a = "DCDC0" then some DRV_NPM6001_DCDC0
  else if a = "DCDC1" then some DRV_NPM6001_DCDC1
  else if a = "DCDC2" then some DRV_NPM6001_DCDC2
  else if a = "DCDC3" then some DRV_NPM6001_DCDC3
  else if a = "LDO0" then some DRV_NPM6001_LDO0
  else if a = "LDO1" then some DRV_NPM6001_LDO1
  else none

/-- The argument loop of `cmd_vreg` (lines 213-242) over `argv[1..]`.  `Except.error a` is the
early return of line 239 on the token `a`; `Except.ok` carries the locals after the loop. -/
def vreg_scan : List String → vreg_locals → Except String vreg_locals
  | [], l => Except.ok l
  | a :: rest, l =>
    if a = "ON" ∨ a = "on" then Except.ok { l with turn_on := true }
    else if a = "OFF" ∨ a = "off" then Except.ok { l with turn_off := true }
    else if a = "0" then Except.ok { l with turn_off := true }
    else if a = "ULP" ∨ a = "ulp" then
      vreg_scan rest { l with set_mode := true, mode := DRV_NPM6001_MODE_ULP }
    else if a = "PWM" ∨ a = "pwm" then
      vreg_scan rest { l with set_mode := true, mode := DRV_NPM6001_MODE_PWM }
    else
      if to_uint16 (strtol a 0) = 0 then Except.error a
      else vreg_scan rest { l with set_voltage := true, voltage := to_uint16 (strtol a 0) }

/-- Lines 244-249: a zero voltage means off, any other voltage means on. -/
def vreg_resolve (l : vreg_locals) : vreg_locals :=
  if l.set_voltage ∧ l.voltage = 0 then { l with turn_off := true, set_voltage := false }
  else if l.set_voltage then { l with turn_on := true }
  else l

/-- The limits `(v_min, v_max)` that the switch of lines 269-297 selects, as `uint16_t`.
The `default` case of the switch is not reachable: the enumeration has these six values. -/
def vreg_limits (h : Header) : drv_npm6001_vreg → Nat × Nat
  | DRV_NPM6001_DCDC0 => (DRV_NPM6001_DCDC0_MINV % 65536, DRV_NPM6001_DCDC0_MAXV % 65536)
  | DRV_NPM6001_DCDC1 => (DRV_NPM6001_DCDC1_MINV % 65536, DRV_NPM6001_DCDC1_MAXV % 65536)
  | DRV_NPM6001_DCDC2 => (DRV_NPM6001_DCDC2_MINV % 65536, DRV_NPM6001_DCDC2_MAXV % 65536)
  | DRV_NPM6001_DCDC3 => (DRV_NPM6001_DCDC3_MINV % 65536, DRV_NPM6001_DCDC3_MAXV % 65536)
  | DRV_NPM6001_LDO0 => (DRV_NPM6001_LDO0_MINV % 65536, DRV_NPM6001_LDO0_MAXV % 65536)
  | DRV_NPM6001_LDO1 => (h.DRV_NPM6001_LDO1_MINV % 65536, h.DRV_NPM6001_LDO1_MAXV % 65536)

/-- Lines 350-366 of `cmd_vreg`: enable, else disable, and the return. -/
def vreg_on_off (rc : Call → Nat → Int) (argv0 : String) (regulator : drv_npm6001_vreg)
    (l : vreg_locals) (s : Effects) : Result :=
  if l.turn_on then
    let r := s.call rc (drv_npm6001_vreg_enable regulator)
    if r.1 ≠ 0 then (r.2.say (shell_warn "Failed to enable %s" [FmtArg.str argv0])).done 0
    else r.2.done 0
  else if l.turn_off then
    let r := s.call rc (drv_npm6001_vreg_disable regulator)
    if r.1 = -EINVAL then
      (r.2.say (shell_warn "%s cannot be disabled" [FmtArg.str argv0])).done 0
    else if r.1 ≠ 0 then
      (r.2.say (shell_warn "Failed to disable %s" [FmtArg.str argv0])).done 0
    else
      (r.2.say (shell_print "Successfully disabled %s" [FmtArg.str argv0])).done 0
  else s.done 0

/-- Lines 330-338 of `cmd_vreg`: the disable of DCDC3 inside the voltage block, which sets
`turn_on` when it succeeds. -/
def vreg_inner_disable (rc : Call → Nat → Int) (argv0 : String) (regulator : drv_npm6001_vreg)
    (l : vreg_locals) (s : Effects) : vreg_locals × Effects :=
  if regulator = DRV_NPM6001_DCDC3 then
    let r := s.call rc (drv_npm6001_vreg_disable regulator)
    if r.1 ≠ 0 then (l, r.2.say (shell_warn "Failed to disable %s" [FmtArg.str argv0]))
    else ({ l with turn_on := true }, r.2)
  else (l, s)

/-- Lines 329-348 of `cmd_vreg`, then the rest: the voltage block. -/
def vreg_set_voltage (rc : Call → Nat → Int) (argv0 : String) (regulator : drv_npm6001_vreg)
    (l : vreg_locals) (s : Effects) : Result :=
  if l.set_voltage then
    let d := vreg_inner_disable rc argv0 regulator l s
    let r := d.2.call rc (drv_npm6001_vreg_voltage_set regulator l.voltage)
    if r.1 = -EINVAL then
      (r.2.say (shell_warn "Invalid voltage selection" [])).done 0
    else if r.1 ≠ 0 then
      vreg_on_off rc argv0 regulator d.1 (r.2.say (shell_warn "Failed to set voltage" []))
    else
      vreg_on_off rc argv0 regulator d.1
        (r.2.say (shell_print "Successfully set %s voltage" [FmtArg.str argv0]))
  else vreg_on_off rc argv0 regulator l s

/-- Lines 321-327 of `cmd_vreg`, then the rest: the first disable of DCDC3. -/
def vreg_outer_disable (rc : Call → Nat → Int) (argv0 : String) (regulator : drv_npm6001_vreg)
    (l : vreg_locals) (s : Effects) : Result :=
  if l.set_voltage ∧ regulator = DRV_NPM6001_DCDC3 then
    let r := s.call rc (drv_npm6001_vreg_disable regulator)
    if r.1 ≠ 0 then
      vreg_set_voltage rc argv0 regulator l
        (r.2.say (shell_warn "Failed to disable %s" [FmtArg.str argv0]))
    else vreg_set_voltage rc argv0 regulator l r.2
  else vreg_set_voltage rc argv0 regulator l s

/-- Lines 311-319 of `cmd_vreg`, then the rest: the mode block. -/
def vreg_set_mode (rc : Call → Nat → Int) (argv0 : String) (regulator : drv_npm6001_vreg)
    (l : vreg_locals) (s : Effects) : Result :=
  if l.set_mode then
    let r := s.call rc (drv_npm6001_vreg_dcdc_mode_set regulator l.mode)
    if r.1 ≠ 0 then (r.2.say (shell_warn "Failed to set mode" [])).done 0
    else
      vreg_outer_disable rc argv0 regulator l
        (r.2.say (shell_print "Successfully set %s mode" [FmtArg.str argv0]))
  else vreg_outer_disable rc argv0 regulator l s

/-- Lines 268-309 of `cmd_vreg`, then the rest: the range check of the voltage. -/
def vreg_check_voltage (h : Header) (rc : Call → Nat → Int) (argv0 : String)
    (regulator : drv_npm6001_vreg) (l : vreg_locals) (s : Effects) : Result :=
  if l.set_voltage then
    if l.voltage < (vreg_limits h regulator).1 ∨ l.voltage > (vreg_limits h regulator).2 then
      (s.say (shell_warn "Invalid voltage selection. Valid range for %s: %d mV - %d mV"
        [FmtArg.str argv0, FmtArg.num (vreg_limits h regulator).1,
         FmtArg.num (vreg_limits h regulator).2])).done 0
    else if regulator = DRV_NPM6001_LDO1 then
      vreg_set_mode rc argv0 regulator { l with set_voltage := false } s
    else vreg_set_mode rc argv0 regulator l s
  else vreg_set_mode rc argv0 regulator l s

/-- Lines 263-266 of `cmd_vreg`, then the rest: no mode selection on the LDOs. -/
def vreg_check_mode (h : Header) (rc : Call → Nat → Int) (argv0 : String)
    (regulator : drv_npm6001_vreg) (l : vreg_locals) (s : Effects) : Result :=
  if l.set_mode ∧ (regulator = DRV_NPM6001_LDO0 ∨ regulator = DRV_NPM6001_LDO1) then
    vreg_check_voltage h rc argv0 regulator { l with set_mode := false }
      (s.say (shell_warn "LDO regulators does not have mode selection" []))
  else vreg_check_voltage h rc argv0 regulator l s

/-- Lines 251-261 of `cmd_vreg`, then the rest: DCDC0, DCDC1 and DCDC2 stay on. -/
def vreg_check_off (h : Header) (rc : Call → Nat → Int) (argv0 : String)
    (regulator : drv_npm6001_vreg) (l : vreg_locals) (s : Effects) : Result :=
  if l.turn_off ∧ (regulator = DRV_NPM6001_DCDC0 ∨ regulator = DRV_NPM6001_DCDC1 ∨
      regulator = DRV_NPM6001_DCDC2) then
    (s.say (shell_warn "%s cannot be turned off" [FmtArg.str argv0])).done 0
  else vreg_check_mode h rc argv0 regulator l s

/-- The usage text of `cmd_vreg` (lines 188-191). -/
def vreg_usage : List Msg :=
  [shell_print "Usage: ~$ npm6001 vreg REGULATOR [MODE] [VOLTAGE mV]" [],
   shell_print "example, set output voltage: ~$ npm6001 vreg DCDC3 2500" [],
   shell_print "example, turn off: ~$ npm6001 vreg DCDC3 off" [],
   shell_print "example, set PWM mode: ~$ npm6001 vreg DCDC2 pwm" []]

/-- The handler `cmd_vreg` (lines 174-367) on the argument vector `argv0 :: args`, so that
`argc` is `args.length + 1`: line 195 reads `argv[0]`, and the shell passes at least the
command name. -/
def cmd_vreg (h : Header) (rc : Call → Nat → Int) (argv0 : String) (args : List String) : Result :=
  if args.length + 1 = 1 then ⟨0, vreg_usage, []⟩
  else
    match vreg_of_name argv0 with
    | none =>
      ⟨0, [shell_print "Please specify valid regulator to adjust" [],
           shell_print "(hint: use 'tab' key for autocompletion)" []], []⟩
    | some regulator =>
      match vreg_scan args vreg_locals.init with
      | Except.error a =>
        ⟨0, [shell_warn "Unexpected parameter: %s" [FmtArg.str a]], []⟩
      | Except.ok l =>
        vreg_check_off h rc argv0 regulator (vreg_resolve l) Effects.start

/-! ## Watchdog (lines 379-437) -/

/-- The handler `cmd_wd_enable` (lines 379-402). -/
def cmd_wd_enable (rc : Call → Nat → Int) (argv : List String) : Result :=
  match argv with
  | [_, argv1] =>
    let r := Effects.start.call rc (drv_npm6001_watchdog_enable (to_uint32 (strtol argv1 0)))
    if r.1 = -EINVAL then (r.2.say (shell_warn "Invalid watchdog timeout" [])).done 0
    else if r.1 ≠ 0 then (r.2.say (shell_warn "Failed to enable watchdog" [])).done 0
    else (r.2.say (shell_print "Successfully enabled watchdog" [])).done 0
  | _ => ⟨0, [shell_print "Usage: ~$ npm6001 watchdog enable [timeout]" []], []⟩

/-- The handler `cmd_wd_disable` (lines 404-416); it does not look at its arguments. -/
def cmd_wd_disable (rc : Call → Nat → Int) (_argv : List String) : Result :=
  let r := Effects.start.call rc drv_npm6001_watchdog_disable
  if r.1 ≠ 0 then (r.2.say (shell_warn "Failed to disable watchdog" [])).done 0
  else (r.2.say (shell_print "Successfully disabled watchdog" [])).done 0

/-- The handler `cmd_wd_kick` (lines 418-430); it does not look at its arguments. -/
def cmd_wd_kick (rc : Call → Nat → Int) (_argv : List String) : Result :=
  let r := Effects.start.call rc drv_npm6001_watchdog_kick
  if r.1 ≠ 0 then (r.2.say (shell_warn "Failed to kick watchdog" [])).done 0
  else (r.2.say (shell_print "Successfully kicked watchdog" [])).done 0

/-! ## Interrupts (lines 439-499) -/

/-- The interrupt that `argv[0]` names (lines 452-466), `none` for the final `else`. -/
def int_of_name (a : String) : Option drv_npm6001_int :=
  if a = "THWARN" then some DRV_NPM6001_INT_THERMAL_WARNING
  else if a = "DCDC0OC" then some DRV_NPM6001_INT_DCDC0_OVERCURRENT
  else if a = "DCDC1OC" then some DRV_NPM6001_INT_DCDC1_OVERCURRENT
  else if a = "DCDC2OC" then some DRV_NPM6001_INT_DCDC2_OVERCURRENT
  else if a = "DCDC3OC" then some DRV_NPM6001_INT_DCDC3_OVERCURRENT
  else none

/-- Lines 477-489 of `cmd_int`: the driver call and its report. -/
def int_apply (rc : Call → Nat → Int) (interrupt : drv_npm6001_int) (enable : Bool) : Result :=
  let r := Effects.start.call rc
    (if enable then drv_npm6001_int_enable interrupt else drv_npm6001_int_disable interrupt)
  if r.1 ≠ 0 then
    (r.2.say (shell_error "Failed to %s interrupt"
      [FmtArg.str (if enable then "enable" else "disable")])).done 0
  else
    (r.2.say (shell_print "Successfully %s interrupt"
      [FmtArg.str (if enable then "enabled" else "disabled")])).done 0

/-- The handler `cmd_int` (lines 439-490). -/
def cmd_int (rc : Call → Nat → Int) (argv : List String) : Result :=
  match argv with
  | argv0 :: argv1 :: _ =>
    match int_of_name argv0 with
    | none =>
      ⟨0, [shell_print "Please specify valid interrupt to configure" [],
           shell_print "(hint: use 'tab' key for autocompletion)" []], []⟩
    | some interrupt =>
      if argv1 = "ENABLE" ∨ argv1 = "enable" then int_apply rc interrupt true
      else if argv1 = "DISABLE" ∨ argv1 = "disable" then int_apply rc interrupt false
      else ⟨0, [shell_warn "Invalid option" []], []⟩
  | _ =>
    ⟨0, [shell_print "Usage: ~$ npm6001 interrupt TYPE [enable/disable]" [],
         shell_print "example: ~$ npm6001 THWARN enable" [],
         shell_print "         ~$ npm6001 DCDC1OC disable" []], []⟩

/-! ## Hibernation and the root command (lines 501-546) -/

/-- The handler `cmd_hibernate` (lines 501-525). -/
def cmd_hibernate (rc : Call → Nat → Int) (argv : List String) : Result :=
  match argv with
  | [_, argv1] =>
    let r := Effects.start.call rc (drv_npm6001_hibernate (to_uint32 (strtol argv1 0)))
    if r.1 = -EINVAL then
      (r.2.say (shell_warn "Invalid hibernation wakeup duration" [])).done 0
    else if r.1 ≠ 0 then
      (r.2.say (shell_warn "Failed to enable hibernation mode" [])).done 0
    else (r.2.say (shell_print "Successfully enabled hibernation mode" [])).done 0
  | _ =>
    ⟨0, [shell_print "Usage: ~$ npm6001 hibernate timeout" [],
         shell_print "example, 1 hour hibernation: ~$ npm6001 hibernate 900" []], []⟩

/-- The handler `cmd_npm6001` (lines 538-543); it does not look at its arguments. -/
def cmd_npm6001 (_argv : List String) : Result :=
  (Effects.start.say shell_help).done 0

/-! ## Vocabulary of the statements

Tokens, drivers and texts that the statements below speak of. -/

/-- The token is one of the keywords that end the argument loop of `cmd_vreg`. -/
def is_on_off (a : String) : Prop :=
  a = "ON" ∨ a = "on" ∨ a = "OFF" ∨ a = "off" ∨ a = "0"

instance (a : String) : Decidable (is_on_off a) :=
  inferInstanceAs (Decidable (a = "ON" ∨ a = "on" ∨ a = "OFF" ∨ a = "off" ∨ a = "0"))

/-- The token is an `off` keyword of `cmd_vreg`. -/
def is_off (a : String) : Prop :=
  a = "OFF" ∨ a = "off" ∨ a = "0"

instance (a : String) : Decidable (is_off a) :=
  inferInstanceAs (Decidable (a = "OFF" ∨ a = "off" ∨ a = "0"))

/-- The token is a mode keyword of `cmd_vreg`. -/
def is_mode (a : String) : Prop :=
  a = "ULP" ∨ a = "ulp" ∨ a = "PWM" ∨ a = "pwm"

instance (a : String) : Decidable (is_mode a) :=
  inferInstanceAs (Decidable (a = "ULP" ∨ a = "ulp" ∨ a = "PWM" ∨ a = "pwm"))

/-- The argument loop of `cmd_vreg` goes past the token: it is a mode keyword, or its value
as a `uint16_t` is not zero (which no `on`, `off` or `0` keyword has). -/
def is_accepted (a : String) : Prop :=
  is_mode a ∨ to_uint16 (strtol a 0) ≠ 0

instance (a : String) : Decidable (is_accepted a) :=
  inferInstanceAs (Decidable (is_mode a ∨ to_uint16 (strtol a 0) ≠ 0))

/-- What one accepted token does to the locals in the argument loop of `cmd_vreg`
(lines 228-236): a mode keyword selects the mode, any other token is the voltage. -/
def vreg_absorb (l : vreg_locals) (a : String) : vreg_locals :=
  if a = "ULP" ∨ a = "ulp" then { l with set_mode := true, mode := DRV_NPM6001_MODE_ULP }
  else if a = "PWM" ∨ a = "pwm" then { l with set_mode := true, mode := DRV_NPM6001_MODE_PWM }
  else { l with set_voltage := true, voltage := to_uint16 (strtol a 0) }

/-- The call is a `drv_npm6001_vreg_dcdc_mode_set`. -/
def Call.is_mode_set : Call → Bool
  | drv_npm6001_vreg_dcdc_mode_set _ _ => true
  | _ => false

/-- The call is a `drv_npm6001_vreg_disable`. -/
def Call.is_disable : Call → Bool
  | drv_npm6001_vreg_disable _ => true
  | _ => false

/-- The call is a `drv_npm6001_vreg_voltage_set`. -/
def Call.is_voltage_set : Call → Bool
  | drv_npm6001_vreg_voltage_set _ _ => true
  | _ => false

/-- The call is a `drv_npm6001_vreg_enable`. -/
def Call.is_enable : Call → Bool
  | drv_npm6001_vreg_enable _ => true
  | _ => false

/-- The driver and the bus in which every call succeeds. -/
def rc_ok : Call → Nat → Int := fun _ _ => 0

/-- A driver in which `drv_npm6001_vreg_dcdc_mode_set` fails with `-EIO` (-5) and every
other call succeeds. -/
def rc_mode_set_fails : Call → Nat → Int := fun c _ => if c.is_mode_set then -5 else 0

/-- A driver in which `drv_npm6001_vreg_disable` fails with `-EIO` (-5) and every other
call succeeds. -/
def rc_disable_fails : Call → Nat → Int := fun c _ => if c.is_disable then -5 else 0

/-- A header for the examples: LDO1 fixed at 1800 mV, every register at offset 0. -/
def header0 : Header := ⟨1800, 1800, fun _ => 0⟩

/-- A regulator with a configurable voltage as the specification lists it: its name, the
regulator, and its range in millivolts. -/
structure spec_range where
  name : String
  regulator : drv_npm6001_vreg
  v_min : Nat
  v_max : Nat
  deriving DecidableEq, Repr

/-- The ranges of the regulators with a configurable voltage as the specification lists
them. -/
def spec_ranges : List spec_range :=
  [⟨"DCDC0", DRV_NPM6001_DCDC0, 1800, 3300⟩, ⟨"DCDC1", DRV_NPM6001_DCDC1, 700, 1400⟩,
   ⟨"DCDC2", DRV_NPM6001_DCDC2, 1200, 1400⟩, ⟨"DCDC3", DRV_NPM6001_DCDC3, 500, 3300⟩,
   ⟨"LDO0", DRV_NPM6001_LDO0, 1800, 3300⟩]

/-- The warning of lines 300-301 for a regulator name and a range. -/
def range_warning (name : String) (v_min v_max : Nat) : Msg :=
  shell_warn "Invalid voltage selection. Valid range for %s: %d mV - %d mV"
    [FmtArg.str name, FmtArg.num v_min, FmtArg.num v_max]

/-- The warning of line 264. -/
def ldo_mode_warning : Msg :=
  shell_warn "LDO regulators does not have mode selection" []

/-- The decimal text of a number. -/
def decimal_text (v : Nat) : String := String.mk (Nat.toDigits 10 v)

/-- The hexadecimal text of a number after `0x`. -/
def hex_text (v : Nat) : String := String.mk ('0' :: 'x' :: Nat.toDigits 16 v)

/-- The binary text of a number after `0b`. -/
def binary_text (v : Nat) : String := String.mk ('0' :: 'b' :: Nat.toDigits 2 v)

/-! ## The calls of `cmd_vreg` block by block

The lists of calls that the blocks of `cmd_vreg` make, written as functions of the locals;
the lemmas below prove that the handler makes exactly these calls. -/

/-- The calls of lines 350-364 of `cmd_vreg`: enable, else disable. -/
def on_off_calls (regulator : drv_npm6001_vreg) (l : vreg_locals) : List Call :=
  if l.turn_on then [drv_npm6001_vreg_enable regulator]
  else if l.turn_off then [drv_npm6001_vreg_disable regulator]
  else []

/-- The calls of lines 329-364 of `cmd_vreg` when `k` calls went before and `turn_on` is set
whenever `set_voltage` is: the disable of DCDC3, the voltage, and the enable unless the
voltage was refused with `-EINVAL`. -/
def voltage_calls (rc : Call → Nat → Int) (regulator : drv_npm6001_vreg) (l : vreg_locals)
    (k : Nat) : List Call :=
  if l.set_voltage then
    (if regulator = DRV_NPM6001_DCDC3 then [drv_npm6001_vreg_disable regulator] else []) ++
    [drv_npm6001_vreg_voltage_set regulator l.voltage] ++
    (if rc (drv_npm6001_vreg_voltage_set regulator l.voltage)
        (k + (if regulator = DRV_NPM6001_DCDC3 then 1 else 0)) = -EINVAL then []
     else [drv_npm6001_vreg_enable regulator])
  else on_off_calls regulator l

/-- The calls of lines 321-364 of `cmd_vreg` when `k` calls went before. -/
def disable_calls (rc : Call → Nat → Int) (regulator : drv_npm6001_vreg) (l : vreg_locals)
    (k : Nat) : List Call :=
  if l.set_voltage ∧ regulator = DRV_NPM6001_DCDC3 then
    drv_npm6001_vreg_disable regulator :: voltage_calls rc regulator l (k + 1)
  else voltage_calls rc regulator l k

/-- The calls of lines 311-364 of `cmd_vreg` when `k` calls went before: nothing follows a
mode-set that fails. -/
def mode_calls (rc : Call → Nat → Int) (regulator : drv_npm6001_vreg) (l : vreg_locals)
    (k : Nat) : List Call :=
  if l.set_mode then
    drv_npm6001_vreg_dcdc_mode_set regulator l.mode ::
      (if rc (drv_npm6001_vreg_dcdc_mode_set regulator l.mode) k ≠ 0 then []
       else disable_calls rc regulator l (k + 1))
  else disable_calls rc regulator l k

/-- The last calls of `cmd_vreg` (what follows the voltage-set, or the on/off block alone)
when `k` calls went before the block of line 321 and `turn_on` is set whenever
`set_voltage` is: after a voltage-set the enable, unless the voltage-set returned
`-EINVAL`; without a voltage-set the calls of the on/off block. -/
def final_calls (rc : Call → Nat → Int) (regulator : drv_npm6001_vreg) (l : vreg_locals)
    (k : Nat) : List Call :=
  if l.set_voltage then
    (if rc (drv_npm6001_vreg_voltage_set regulator l.voltage)
        (k + (if regulator = DRV_NPM6001_DCDC3 then 2 else 0)) = -EINVAL then []
     else [drv_npm6001_vreg_enable regulator])
  else on_off_calls regulator l

/-- The calls of lines 251-364 of `cmd_vreg` for the locals of line 250: none when the
command is refused (off on DCDC0..DCDC2, voltage out of range), else those of the mode,
voltage and on/off blocks, without the mode on an LDO and without the voltage on LDO1. -/
def checked_calls (h : Header) (rc : Call → Nat → Int) (regulator : drv_npm6001_vreg)
    (l : vreg_locals) : List Call :=
  if l.turn_off ∧ (regulator = DRV_NPM6001_DCDC0 ∨ regulator = DRV_NPM6001_DCDC1 ∨
      regulator = DRV_NPM6001_DCDC2) then []
  else if l.set_voltage ∧ (l.voltage < (vreg_limits h regulator).1 ∨
      l.voltage > (vreg_limits h regulator).2) then []
  else
    mode_calls rc regulator
      { l with
        set_mode := l.set_mode && !(decide (regulator = DRV_NPM6001_LDO0 ∨
          regulator = DRV_NPM6001_LDO1)),
        set_voltage := l.set_voltage && !(decide (regulator = DRV_NPM6001_LDO1)) } 0

/-! ## Lemmas on the argument loop -/

theorem is_accepted_not_on_off (a : String) (h : is_accepted a) : ¬ is_on_off a := by
  intro hk
  rcases hk with rfl | rfl | rfl | rfl | rfl <;> revert h <;> decide

theorem vreg_scan_accepted (a : String) (rest : List String) (l : vreg_locals)
    (h : is_accepted a) : vreg_scan (a :: rest) l = vreg_scan rest (vreg_absorb l a) := by
  have hk := is_accepted_not_on_off a h
  simp only [is_on_off, not_or] at hk
  obtain ⟨h1, h2, h3, h4, h5⟩ := hk
  by_cases hu : a = "ULP" ∨ a = "ulp"
  · simp [vreg_scan, vreg_absorb, h1, h2, h3, h4, h5, hu]
  · by_cases hp : a = "PWM" ∨ a = "pwm"
    · simp [vreg_scan, vreg_absorb, h1, h2, h3, h4, h5, hu, hp]
    · have hz : to_uint16 (strtol a 0) ≠ 0 := by
        rcases h with hm | hz
        · simp only [is_mode] at hm
          tauto
        · exact hz
      simp [vreg_scan, vreg_absorb, h1, h2, h3, h4, h5, hu, hp, hz]

theorem vreg_scan_append (pre rest : List String) (l : vreg_locals)
    (h : ∀ a ∈ pre, is_accepted a) :
    vreg_scan (pre ++ rest) l = vreg_scan rest (pre.foldl vreg_absorb l) := by
  induction pre generalizing l with
  | nil => rfl
  | cons a pre ih =>
    have ha : is_accepted a := h a (List.mem_cons_self a pre)
    have hp : ∀ b ∈ pre, is_accepted b := fun b hb => h b (List.mem_cons_of_mem a hb)
    simp only [List.cons_append, List.foldl_cons]
    rw [vreg_scan_accepted a _ l ha]
    exact ih _ hp

/-! ## Lemmas on the locals after the loop -/

theorem vreg_absorb_turn (l : vreg_locals) (a : String) :
    (vreg_absorb l a).turn_on = l.turn_on ∧ (vreg_absorb l a).turn_off = l.turn_off := by
  unfold vreg_absorb
  split_ifs <;> simp

theorem vreg_foldl_turn (pre : List String) (l : vreg_locals) :
    (pre.foldl vreg_absorb l).turn_on = l.turn_on ∧
    (pre.foldl vreg_absorb l).turn_off = l.turn_off := by
  induction pre generalizing l with
  | nil => simp
  | cons a pre ih =>
    simp only [List.foldl_cons]
    rw [(ih _).1, (ih _).2]
    exact vreg_absorb_turn l a

theorem vreg_absorb_mode (l : vreg_locals) (a : String) (h : is_mode a) :
    (vreg_absorb l a).set_voltage = l.set_voltage ∧ (vreg_absorb l a).voltage = l.voltage ∧
    (vreg_absorb l a).set_mode = true := by
  unfold vreg_absorb
  simp only [is_mode] at h
  split_ifs <;> simp
  tauto

theorem vreg_foldl_mode (post : List String) (l : vreg_locals) (h : ∀ a ∈ post, is_mode a) :
    (post.foldl vreg_absorb l).set_voltage = l.set_voltage ∧
    (post.foldl vreg_absorb l).voltage = l.voltage := by
  induction post generalizing l with
  | nil => simp
  | cons a post ih =>
    have ha : is_mode a := h a (List.mem_cons_self a post)
    have hp : ∀ b ∈ post, is_mode b := fun b hb => h b (List.mem_cons_of_mem a hb)
    simp only [List.foldl_cons]
    rw [(ih _ hp).1, (ih _ hp).2]
    exact ⟨(vreg_absorb_mode l a ha).1, (vreg_absorb_mode l a ha).2.1⟩

theorem vreg_absorb_voltage (l : vreg_locals) (a : String) (h : ¬ is_mode a) :
    vreg_absorb l a = { l with set_voltage := true, voltage := to_uint16 (strtol a 0) } := by
  unfold vreg_absorb
  simp only [is_mode] at h
  split_ifs <;> first | rfl | tauto

/-! ## Lemmas on the driver calls -/

theorem vreg_on_off_calls (rc : Call → Nat → Int) (argv0 : String)
    (regulator : drv_npm6001_vreg) (l : vreg_locals) (s : Effects) :
    (vreg_on_off rc argv0 regulator l s).calls = s.calls ++ on_off_calls regulator l := by
  unfold vreg_on_off on_off_calls
  simp only [Effects.call, Effects.say, Effects.done]
  split_ifs <;> simp

theorem vreg_inner_disable_calls (rc : Call → Nat → Int) (argv0 : String)
    (regulator : drv_npm6001_vreg) (l : vreg_locals) (s : Effects) :
    (vreg_inner_disable rc argv0 regulator l s).2.calls =
      s.calls ++ (if regulator = DRV_NPM6001_DCDC3 then [drv_npm6001_vreg_disable regulator]
        else []) := by
  unfold vreg_inner_disable
  simp only [Effects.call, Effects.say]
  split_ifs <;> simp

theorem vreg_inner_disable_turn (rc : Call → Nat → Int) (argv0 : String)
    (regulator : drv_npm6001_vreg) (l : vreg_locals) (s : Effects) (hon : l.turn_on = true) :
    on_off_calls regulator (vreg_inner_disable rc argv0 regulator l s).1 =
      [drv_npm6001_vreg_enable regulator] := by
  unfold vreg_inner_disable
  simp only [Effects.call, Effects.say]
  split_ifs <;> simp [on_off_calls, hon]

theorem vreg_set_voltage_calls (rc : Call → Nat → Int) (argv0 : String)
    (regulator : drv_npm6001_vreg) (l : vreg_locals) (s : Effects)
    (hinv : l.set_voltage = true → l.turn_on = true) :
    (vreg_set_voltage rc argv0 regulator l s).calls =
      s.calls ++ voltage_calls rc regulator l s.calls.length := by
  unfold vreg_set_voltage voltage_calls
  by_cases hv : l.set_voltage = true
  · have hon := hinv hv
    simp only [hv, if_true, Effects.call, Effects.say, Effects.done,
      vreg_inner_disable_calls]
    split_ifs <;>
    simp_all [vreg_on_off_calls, vreg_inner_disable_calls, vreg_inner_disable_turn]
  · simp [hv, vreg_on_off_calls]

theorem vreg_outer_disable_calls (rc : Call → Nat → Int) (argv0 : String)
    (regulator : drv_npm6001_vreg) (l : vreg_locals) (s : Effects)
    (hinv : l.set_voltage = true → l.turn_on = true) :
    (vreg_outer_disable rc argv0 regulator l s).calls =
      s.calls ++ disable_calls rc regulator l s.calls.length := by
  unfold vreg_outer_disable disable_calls
  simp only [Effects.call, Effects.say]
  split_ifs <;>
  simp [vreg_set_voltage_calls _ _ _ _ _ hinv]

theorem vreg_set_mode_calls (rc : Call → Nat → Int) (argv0 : String)
    (regulator : drv_npm6001_vreg) (l : vreg_locals) (s : Effects)
    (hinv : l.set_voltage = true → l.turn_on = true) :
    (vreg_set_mode rc argv0 regulator l s).calls =
      s.calls ++ mode_calls rc regulator l s.calls.length := by
  unfold vreg_set_mode mode_calls
  simp only [Effects.call, Effects.say, Effects.done]
  split_ifs <;>
  simp_all [vreg_outer_disable_calls _ _ _ _ _ hinv]

theorem vreg_resolve_turn_on (l : vreg_locals) :
    (vreg_resolve l).set_voltage = true → (vreg_resolve l).turn_on = true := by
  unfold vreg_resolve
  split_ifs <;> simp_all

theorem vreg_check_off_calls (h : Header) (rc : Call → Nat → Int) (argv0 : String)
    (regulator : drv_npm6001_vreg) (l : vreg_locals)
    (hinv : l.set_voltage = true → l.turn_on = true) :
    (vreg_check_off h rc argv0 regulator l Effects.start).calls =
      checked_calls h rc regulator l := by
  obtain ⟨mode, voltage, set_mode, set_voltage, turn_on, turn_off⟩ := l
  unfold vreg_check_off vreg_check_mode vreg_check_voltage checked_calls
  simp only [Effects.say, Effects.done, Effects.start]
  by_cases hr : voltage < (vreg_limits h regulator).1 ∨ voltage > (vreg_limits h regulator).2 <;>
  cases regulator <;> cases set_mode <;> cases set_voltage <;> cases turn_on <;>
  cases turn_off <;> (try simp only [hr, and_true, and_false, if_true, if_false]) <;>
  simp_all [vreg_set_mode_calls]

theorem cmd_vreg_calls (h : Header) (rc : Call → Nat → Int) (argv0 : String)
    (regulator : drv_npm6001_vreg) (a : String) (rest : List String) (l : vreg_locals)
    (hr : vreg_of_name argv0 = some regulator)
    (hs : vreg_scan (a :: rest) vreg_locals.init = Except.ok l) :
    (cmd_vreg h rc argv0 (a :: rest)).calls = checked_calls h rc regulator (vreg_resolve l) := by
  unfold cmd_vreg
  simp only [hr, hs, List.length_cons]
  rw [if_neg (by omega)]
  exact vreg_check_off_calls h rc argv0 regulator _ (vreg_resolve_turn_on l)

theorem vreg_resolve_turn_off (l : vreg_locals) (hoff : l.turn_off = true) :
    (vreg_resolve l).turn_off = true := by
  unfold vreg_resolve
  split_ifs <;> simp_all

theorem cmd_vreg_rejected (h : Header) (rc : Call → Nat → Int) (argv0 : String)
    (regulator : drv_npm6001_vreg) (a t : String) (rest : List String)
    (hr : vreg_of_name argv0 = some regulator)
    (hs : vreg_scan (a :: rest) vreg_locals.init = Except.error t) :
    cmd_vreg h rc argv0 (a :: rest) =
      ⟨0, [shell_warn "Unexpected parameter: %s" [FmtArg.str t]], []⟩ := by
  unfold cmd_vreg
  simp only [hr, hs, List.length_cons]
  rw [if_neg (by omega)]

/-! ## Lemmas on the return value -/

theorem vreg_on_off_ret (rc : Call → Nat → Int) (argv0 : String)
    (regulator : drv_npm6001_vreg) (l : vreg_locals) (s : Effects) :
    (vreg_on_off rc argv0 regulator l s).ret = 0 := by
  unfold vreg_on_off
  simp only [Effects.call, Effects.say, Effects.done]
  split_ifs <;> rfl

theorem vreg_set_voltage_ret (rc : Call → Nat → Int) (argv0 : String)
    (regulator : drv_npm6001_vreg) (l : vreg_locals) (s : Effects) :
    (vreg_set_voltage rc argv0 regulator l s).ret = 0 := by
  unfold vreg_set_voltage
  simp only [Effects.call, Effects.say, Effects.done]
  split_ifs <;> first | rfl | exact vreg_on_off_ret _ _ _ _ _

theorem vreg_outer_disable_ret (rc : Call → Nat → Int) (argv0 : String)
    (regulator : drv_npm6001_vreg) (l : vreg_locals) (s : Effects) :
    (vreg_outer_disable rc argv0 regulator l s).ret = 0 := by
  unfold vreg_outer_disable
  simp only [Effects.call, Effects.say]
  split_ifs <;> exact vreg_set_voltage_ret _ _ _ _ _

theorem vreg_set_mode_ret (rc : Call → Nat → Int) (argv0 : String)
    (regulator : drv_npm6001_vreg) (l : vreg_locals) (s : Effects) :
    (vreg_set_mode rc argv0 regulator l s).ret = 0 := by
  unfold vreg_set_mode
  simp only [Effects.call, Effects.say, Effects.done]
  split_ifs <;> first | rfl | exact vreg_outer_disable_ret _ _ _ _ _

theorem vreg_check_off_ret (h : Header) (rc : Call → Nat → Int) (argv0 : String)
    (regulator : drv_npm6001_vreg) (l : vreg_locals) (s : Effects) :
    (vreg_check_off h rc argv0 regulator l s).ret = 0 := by
  unfold vreg_check_off vreg_check_mode vreg_check_voltage
  simp only [Effects.say, Effects.done]
  split_ifs <;> first | rfl | exact vreg_set_mode_ret _ _ _ _ _

theorem cmd_vreg_ret (h : Header) (rc : Call → Nat → Int) (argv0 : String)
    (args : List String) : (cmd_vreg h rc argv0 args).ret = 0 := by
  unfold cmd_vreg
  split_ifs
  · rfl
  · cases vreg_of_name argv0 with
    | none => rfl
    | some regulator =>
      cases vreg_scan args vreg_locals.init with
      | error a => rfl
      | ok l => exact vreg_check_off_ret _ _ _ _ _ _

/-! ## Lemmas on the messages -/

theorem vreg_on_off_out (rc : Call → Nat → Int) (argv0 : String)
    (regulator : drv_npm6001_vreg) (l : vreg_locals) (s : Effects) :
    s.out <+: (vreg_on_off rc argv0 regulator l s).out := by
  unfold vreg_on_off
  simp only [Effects.call, Effects.say, Effects.done]
  split_ifs <;> simp

theorem vreg_inner_disable_out (rc : Call → Nat → Int) (argv0 : String)
    (regulator : drv_npm6001_vreg) (l : vreg_locals) (s : Effects) :
    s.out <+: (vreg_inner_disable rc argv0 regulator l s).2.out := by
  unfold vreg_inner_disable
  simp only [Effects.call, Effects.say]
  split_ifs <;> simp

theorem vreg_set_voltage_out (rc : Call → Nat → Int) (argv0 : String)
    (regulator : drv_npm6001_vreg) (l : vreg_locals) (s : Effects) :
    s.out <+: (vreg_set_voltage rc argv0 regulator l s).out := by
  have hd := vreg_inner_disable_out rc argv0 regulator l s
  unfold vreg_set_voltage
  simp only [Effects.call, Effects.say, Effects.done]
  split_ifs
  · exact hd.trans (List.prefix_append _ _)
  · refine List.IsPrefix.trans ?_ (vreg_on_off_out _ _ _ _ _)
    exact hd.trans (List.prefix_append _ _)
  · refine List.IsPrefix.trans ?_ (vreg_on_off_out _ _ _ _ _)
    exact hd.trans (List.prefix_append _ _)
  · exact vreg_on_off_out _ _ _ _ _

theorem vreg_outer_disable_out (rc : Call → Nat → Int) (argv0 : String)
    (regulator : drv_npm6001_vreg) (l : vreg_locals) (s : Effects) :
    s.out <+: (vreg_outer_disable rc argv0 regulator l s).out := by
  unfold vreg_outer_disable
  simp only [Effects.call, Effects.say]
  split_ifs
  · refine List.IsPrefix.trans ?_ (vreg_set_voltage_out _ _ _ _ _)
    exact List.prefix_append _ _
  · refine List.IsPrefix.trans ?_ (vreg_set_voltage_out _ _ _ _ _)
    exact List.prefix_rfl
  · exact vreg_set_voltage_out _ _ _ _ _

theorem vreg_set_mode_out (rc : Call → Nat → Int) (argv0 : String)
    (regulator : drv_npm6001_vreg) (l : vreg_locals) (s : Effects) :
    s.out <+: (vreg_set_mode rc argv0 regulator l s).out := by
  unfold vreg_set_mode
  simp only [Effects.call, Effects.say, Effects.done]
  split_ifs
  · exact List.prefix_append _ _
  · refine List.IsPrefix.trans ?_ (vreg_outer_disable_out _ _ _ _ _)
    exact List.prefix_append _ _
  · exact vreg_outer_disable_out _ _ _ _ _

theorem vreg_check_voltage_out (h : Header) (rc : Call → Nat → Int) (argv0 : String)
    (regulator : drv_npm6001_vreg) (l : vreg_locals) (s : Effects) :
    s.out <+: (vreg_check_voltage h rc argv0 regulator l s).out := by
  unfold vreg_check_voltage
  simp only [Effects.say, Effects.done]
  split_ifs
  · exact List.prefix_append _ _
  · exact vreg_set_mode_out _ _ _ _ _
  · exact vreg_set_mode_out _ _ _ _ _
  · exact vreg_set_mode_out _ _ _ _ _

/-! ## Setting the voltage of DCDC3 -/

theorem in_range_accepted (t : String) (lo : Int) (hpos : 0 < lo) (hlo : lo ≤ strtol t 0)
    (hhi : strtol t 0 ≤ 65535) :
    to_uint16 (strtol t 0) = (strtol t 0).toNat ∧ is_accepted t ∧ ¬ is_mode t := by
  have h16 : to_uint16 (strtol t 0) = (strtol t 0).toNat := by
    unfold to_uint16
    rw [Int.emod_eq_of_lt (by omega) (by omega)]
  have hne : to_uint16 (strtol t 0) ≠ 0 := by
    rw [h16]
    omega
  refine ⟨h16, Or.inr hne, ?_⟩
  intro hm
  rcases hm with rfl | rfl | rfl | rfl <;> revert hne <;> decide

/-- C1, counterexample: on `DCDC3 pwm 1000` with a driver whose mode-set fails, the only call
is the mode-set; the trace does not contain disable, voltage-set, enable. -/
theorem cmd_vreg_dcdc3_sequence_counterexample :
    (cmd_vreg header0 rc_mode_set_fails "DCDC3" ["pwm", "1000"]).calls =
      [drv_npm6001_vreg_dcdc_mode_set DRV_NPM6001_DCDC3 DRV_NPM6001_MODE_PWM] ∧
    ¬ List.Sublist
      [drv_npm6001_vreg_disable DRV_NPM6001_DCDC3,
       drv_npm6001_vreg_voltage_set DRV_NPM6001_DCDC3 1000,
       drv_npm6001_vreg_enable DRV_NPM6001_DCDC3]
      (cmd_vreg header0 rc_mode_set_fails "DCDC3" ["pwm", "1000"]).calls := by
  have hc : (cmd_vreg header0 rc_mode_set_fails "DCDC3" ["pwm", "1000"]).calls =
      [drv_npm6001_vreg_dcdc_mode_set DRV_NPM6001_DCDC3 DRV_NPM6001_MODE_PWM] := by
    decide
  refine ⟨hc, ?_⟩
  rw [hc]
  intro hs
  have := hs.length_le
  simp at this

/-! ## Range check of a single voltage token -/

theorem vreg_scan_single (t : String) (hacc : is_accepted t) (hnm : ¬ is_mode t) :
    vreg_scan [t] vreg_locals.init =
      Except.ok { vreg_locals.init with
        set_voltage := true, voltage := to_uint16 (strtol t 0) } := by
  rw [vreg_scan_accepted t [] _ hacc, vreg_absorb_voltage _ t hnm]
  rfl

theorem single_voltage_accepted (h : Header) (rc : Call → Nat → Int) (argv0 t : String)
    (regulator : drv_npm6001_vreg) (v : Nat)
    (hr : vreg_of_name argv0 = some regulator) (hne : regulator ≠ DRV_NPM6001_LDO1)
    (hacc : is_accepted t) (hnm : ¬ is_mode t) (hv : to_uint16 (strtol t 0) = v)
    (hlo : (vreg_limits h regulator).1 ≤ v) (hhi : v ≤ (vreg_limits h regulator).2) :
    drv_npm6001_vreg_voltage_set regulator v ∈ (cmd_vreg h rc argv0 [t]).calls := by
  have hv0 : v ≠ 0 := by
    rcases hacc with hm | hz
    · exact absurd hm hnm
    · rw [hv] at hz
      exact hz
  have hs := vreg_scan_single t hacc hnm
  rw [hv] at hs
  rw [cmd_vreg_calls h rc argv0 regulator t [] _ hr hs]
  have hnlt : ¬ (v < (vreg_limits h regulator).1 ∨ v > (vreg_limits h regulator).2) := by omega
  simp only [checked_calls, vreg_resolve, vreg_locals.init]
  simp only [hv0, hnlt, hne, and_false, and_true, if_false, if_true, Bool.false_eq_true,
    false_and, decide_False, Bool.not_false, Bool.and_true, Bool.and_false]
  unfold mode_calls disable_calls voltage_calls
  simp only [Bool.false_eq_true, if_false, if_true]
  split_ifs <;> simp_all

theorem single_voltage_refused (h : Header) (rc : Call → Nat → Int) (argv0 t : String)
    (regulator : drv_npm6001_vreg) (v : Nat)
    (hr : vreg_of_name argv0 = some regulator)
    (hacc : is_accepted t) (hnm : ¬ is_mode t) (hv : to_uint16 (strtol t 0) = v)
    (hout : v < (vreg_limits h regulator).1 ∨ v > (vreg_limits h regulator).2) :
    cmd_vreg h rc argv0 [t] =
      ⟨0, [range_warning argv0 (vreg_limits h regulator).1 (vreg_limits h regulator).2], []⟩ := by
  have hv0 : v ≠ 0 := by
    rcases hacc with hm | hz
    · exact absurd hm hnm
    · rw [hv] at hz
      exact hz
  have hs := vreg_scan_single t hacc hnm
  rw [hv] at hs
  unfold cmd_vreg
  simp only [hr, hs, List.length_singleton]
  rw [if_neg (by omega)]
  simp only [vreg_resolve, vreg_locals.init, vreg_check_off, vreg_check_mode,
    vreg_check_voltage, Effects.start, Effects.say, Effects.done, range_warning]
  simp only [hv0, hout, and_false, and_true, if_false, if_true, Bool.false_eq_true,
    false_and, List.nil_append]

theorem decimal_token (n : Nat)
    (hd : ¬ is_mode (decimal_text n) ∧ to_uint16 (strtol (decimal_text n) 0) = n ∧ n ≠ 0) :
    is_accepted (decimal_text n) ∧ ¬ is_mode (decimal_text n) ∧
    to_uint16 (strtol (decimal_text n) 0) = n := by
  obtain ⟨h1, h2, h3⟩ := hd
  refine ⟨Or.inr ?_, h1, h2⟩
  rw [h2]
  exact h3

theorem boundary_case (h : Header) (rc : Call → Nat → Int) (name : String)
    (regulator : drv_npm6001_vreg) (lo hi : Nat)
    (hr : vreg_of_name name = some regulator) (hne : regulator ≠ DRV_NPM6001_LDO1)
    (hl : vreg_limits h regulator = (lo, hi)) (hle : lo ≤ hi)
    (h1 : ¬ is_mode (decimal_text lo) ∧ to_uint16 (strtol (decimal_text lo) 0) = lo ∧ lo ≠ 0)
    (h2 : ¬ is_mode (decimal_text hi) ∧ to_uint16 (strtol (decimal_text hi) 0) = hi ∧ hi ≠ 0)
    (h3 : ¬ is_mode (decimal_text (lo - 1)) ∧
      to_uint16 (strtol (decimal_text (lo - 1)) 0) = lo - 1 ∧ lo - 1 ≠ 0)
    (h4 : ¬ is_mode (decimal_text (hi + 1)) ∧
      to_uint16 (strtol (decimal_text (hi + 1)) 0) = hi + 1 ∧ hi + 1 ≠ 0) :
    drv_npm6001_vreg_voltage_set regulator lo ∈ (cmd_vreg h rc name [decimal_text lo]).calls ∧
    drv_npm6001_vreg_voltage_set regulator hi ∈ (cmd_vreg h rc name [decimal_text hi]).calls ∧
    cmd_vreg h rc name [decimal_text (lo - 1)] = ⟨0, [range_warning name lo hi], []⟩ ∧
    cmd_vreg h rc name [decimal_text (hi + 1)] = ⟨0, [range_warning name lo hi], []⟩ := by
  obtain ⟨a1, m1, v1⟩ := decimal_token lo h1
  obtain ⟨a2, m2, v2⟩ := decimal_token hi h2
  obtain ⟨a3, m3, v3⟩ := decimal_token (lo - 1) h3
  obtain ⟨a4, m4, v4⟩ := decimal_token (hi + 1) h4
  have hlo : (vreg_limits h regulator).1 = lo := by rw [hl]
  have hhi : (vreg_limits h regulator).2 = hi := by rw [hl]
  have hlo0 : lo ≠ 0 := h1.2.2
  refine ⟨?_, ?_, ?_, ?_⟩
  · exact single_voltage_accepted h rc name _ regulator lo hr hne a1 m1 v1
      (by omega) (by omega)
  · exact single_voltage_accepted h rc name _ regulator hi hr hne a2 m2 v2
      (by omega) (by omega)
  · have := single_voltage_refused h rc name _ regulator (lo - 1) hr a3 m3 v3 (by omega)
    rw [hlo, hhi] at this
    exact this
  · have := single_voltage_refused h rc name _ regulator (hi + 1) hr a4 m4 v4 (by omega)
    rw [hlo, hhi] at this
    exact this

/-- C2: for DCDC0 (1800, 3300), DCDC1 (700, 1400), DCDC2 (1200, 1400), DCDC3 (500, 3300)
and LDO0 (1800, 3300), whatever the driver returns, the command with the single token
`min` and the one with `max` call `drv_npm6001_vreg_voltage_set` with the regulator and
that value, and the commands with `min - 1` and with `max + 1` print the warning
"Invalid voltage selection. Valid range ...", return 0 and make no driver call. -/
theorem cmd_vreg_boundary_values (h : Header) (rc : Call → Nat → Int) :
    ∀ e ∈ spec_ranges,
      drv_npm6001_vreg_voltage_set e.regulator e.v_min ∈
        (cmd_vreg h rc e.name [decimal_text e.v_min]).calls ∧
      drv_npm6001_vreg_voltage_set e.regulator e.v_max ∈
        (cmd_vreg h rc e.name [decimal_text e.v_max]).calls ∧
      cmd_vreg h rc e.name [decimal_text (e.v_min - 1)] =
        ⟨0, [range_warning e.name e.v_min e.v_max], []⟩ ∧
      cmd_vreg h rc e.name [decimal_text (e.v_max + 1)] =
        ⟨0, [range_warning e.name e.v_min e.v_max], []⟩ := by
  intro e he
  simp only [spec_ranges, List.mem_cons, List.mem_singleton, List.not_mem_nil, or_false] at he
  rcases he with rfl | rfl | rfl | rfl | rfl
  · exact boundary_case h rc "DCDC0" DRV_NPM6001_DCDC0 1800 3300 (by decide) (by decide) rfl
      (by decide) (by decide) (by decide) (by decide) (by decide)
  · exact boundary_case h rc "DCDC1" DRV_NPM6001_DCDC1 700 1400 (by decide) (by decide) rfl
      (by decide) (by decide) (by decide) (by decide) (by decide)
  · exact boundary_case h rc "DCDC2" DRV_NPM6001_DCDC2 1200 1400 (by decide) (by decide) rfl
      (by decide) (by decide) (by decide) (by decide) (by decide)
  · exact boundary_case h rc "DCDC3" DRV_NPM6001_DCDC3 500 3300 (by decide) (by decide) rfl
      (by decide) (by decide) (by decide) (by decide) (by decide)
  · exact boundary_case h rc "LDO0" DRV_NPM6001_LDO0 1800 3300 (by decide) (by decide) rfl
      (by decide) (by decide) (by decide) (by decide) (by decide)

/-- C2, witness: the entry of DCDC3, range 500..3300, with a driver in which every call
succeeds. -/
theorem cmd_vreg_boundary_values_witness :
    drv_npm6001_vreg_voltage_set DRV_NPM6001_DCDC3 500 ∈
      (cmd_vreg header0 rc_ok "DCDC3" ["500"]).calls ∧
    drv_npm6001_vreg_voltage_set DRV_NPM6001_DCDC3 3300 ∈
      (cmd_vreg header0 rc_ok "DCDC3" ["3300"]).calls ∧
    cmd_vreg header0 rc_ok "DCDC3" ["499"] = ⟨0, [range_warning "DCDC3" 500 3300], []⟩ ∧
    cmd_vreg header0 rc_ok "DCDC3" ["3301"] = ⟨0, [range_warning "DCDC3" 500 3300], []⟩ :=
  cmd_vreg_boundary_values header0 rc_ok ⟨"DCDC3", DRV_NPM6001_DCDC3, 500, 3300⟩ (by decide)

/-! ## Voltage tokens outside the range of `uint16_t` -/

/-- C3, failing input: the tokens `66536` and `-64536` have the values 66536 and -64536,
outside the range 500..3300 of DCDC3, and still the command calls
`drv_npm6001_vreg_voltage_set (DCDC3, 1000)` whatever the driver returns: the value is
cut to 16 bits before the range check.  With a driver that succeeds the calls are disable,
disable, voltage-set of 1000 mV, enable. -/
theorem cmd_vreg_voltage_wraps (h : Header) (rc : Call → Nat → Int) :
    strtol "66536" 0 = 66536 ∧ strtol "-64536" 0 = -64536 ∧
    drv_npm6001_vreg_voltage_set DRV_NPM6001_DCDC3 1000 ∈
      (cmd_vreg h rc "DCDC3" ["66536"]).calls ∧
    drv_npm6001_vreg_voltage_set DRV_NPM6001_DCDC3 1000 ∈
      (cmd_vreg h rc "DCDC3" ["-64536"]).calls ∧
    (cmd_vreg header0 rc_ok "DCDC3" ["66536"]).calls =
      [drv_npm6001_vreg_disable DRV_NPM6001_DCDC3, drv_npm6001_vreg_disable DRV_NPM6001_DCDC3,
       drv_npm6001_vreg_voltage_set DRV_NPM6001_DCDC3 1000,
       drv_npm6001_vreg_enable DRV_NPM6001_DCDC3] := by
  refine ⟨by decide, by decide, ?_, ?_, by decide⟩
  · exact single_voltage_accepted h rc "DCDC3" "66536" DRV_NPM6001_DCDC3 1000 (by decide)
      (by decide) (by decide) (by decide) (by decide)
      (show 500 % 65536 ≤ 1000 by decide) (show 1000 ≤ 3300 % 65536 by decide)
  · exact single_voltage_accepted h rc "DCDC3" "-64536" DRV_NPM6001_DCDC3 1000 (by decide)
      (by decide) (by decide) (by decide) (by decide)
      (show 500 % 65536 ≤ 1000 by decide) (show 1000 ≤ 3300 % 65536 by decide)

/-! ## Off on the rails that stay on -/

theorem vreg_scan_off (k : String) (post : List String) (l : vreg_locals) (hk : is_off k) :
    vreg_scan (k :: post) l = Except.ok { l with turn_off := true } := by
  rcases hk with rfl | rfl | rfl <;> simp [vreg_scan]

theorem vreg_scan_on (k : String) (post : List String) (l : vreg_locals)
    (hk : k = "ON" ∨ k = "on") :
    vreg_scan (k :: post) l = Except.ok { l with turn_on := true } := by
  rcases hk with rfl | rfl <;> simp [vreg_scan]

theorem append_cons_eq_cons (pre : List String) (k : String) (post : List String) :
    ∃ a rest, pre ++ k :: post = a :: rest := by
  cases pre with
  | nil => exact ⟨k, post, rfl⟩
  | cons a pre => exact ⟨a, pre ++ k :: post, rfl⟩

/-- C4: for DCDC0, DCDC1 and DCDC2 and every token list whose first on/off/0 keyword is
`off`, `OFF` or `0`, the tokens before it being ones the loop goes past, the command writes
the warning "<name> cannot be turned off", returns 0 and makes no driver call. -/
theorem cmd_vreg_off_always_on (h : Header) (rc : Call → Nat → Int) (argv0 : String)
    (pre post : List String) (k : String)
    (hname : argv0 = "DCDC0" ∨ argv0 = "DCDC1" ∨ argv0 = "DCDC2")
    (hpre : ∀ a ∈ pre, is_accepted a) (hk : is_off k) :
    cmd_vreg h rc argv0 (pre ++ k :: post) =
      ⟨0, [shell_warn "%s cannot be turned off" [FmtArg.str argv0]], []⟩ := by
  have hs : vreg_scan (pre ++ k :: post) vreg_locals.init =
      Except.ok { pre.foldl vreg_absorb vreg_locals.init with turn_off := true } := by
    rw [vreg_scan_append pre _ _ hpre, vreg_scan_off k post _ hk]
  have hoff := vreg_resolve_turn_off
    { pre.foldl vreg_absorb vreg_locals.init with turn_off := true } rfl
  obtain ⟨a, rest, hcons⟩ := append_cons_eq_cons pre k post
  rw [hcons] at hs ⊢
  unfold cmd_vreg
  rw [if_neg (by simp)]
  rcases hname with rfl | rfl | rfl <;>
  simp [vreg_of_name, hs, vreg_check_off, hoff, Effects.say, Effects.done, Effects.start]

/-- C4, witness: `DCDC1 pwm 1000 off 2000`. -/
theorem cmd_vreg_off_always_on_witness :
    (∀ a ∈ ["pwm", "1000"], is_accepted a) ∧ is_off "off" ∧
    cmd_vreg header0 rc_ok "DCDC1" ["pwm", "1000", "off", "2000"] =
      ⟨0, [shell_warn "%s cannot be turned off" [FmtArg.str "DCDC1"]], []⟩ :=
  ⟨by decide, by decide,
   cmd_vreg_off_always_on header0 rc_ok "DCDC1" ["pwm", "1000"] ["2000"] "off"
     (by decide) (by decide) (by decide)⟩

/-! ## Mode keywords on the LDOs -/

theorem on_off_calls_no_mode_set (regulator : drv_npm6001_vreg) (l : vreg_locals) :
    ∀ c ∈ on_off_calls regulator l, c.is_mode_set = false := by
  unfold on_off_calls
  split_ifs <;> simp [Call.is_mode_set]

theorem voltage_calls_no_mode_set (rc : Call → Nat → Int) (regulator : drv_npm6001_vreg)
    (l : vreg_locals) (k : Nat) :
    ∀ c ∈ voltage_calls rc regulator l k, c.is_mode_set = false := by
  unfold voltage_calls
  split_ifs <;>
  first
  | exact on_off_calls_no_mode_set regulator l
  | simp [Call.is_mode_set]

theorem disable_calls_no_mode_set (rc : Call → Nat → Int) (regulator : drv_npm6001_vreg)
    (l : vreg_locals) (k : Nat) :
    ∀ c ∈ disable_calls rc regulator l k, c.is_mode_set = false := by
  unfold disable_calls
  split_ifs
  · intro c hc
    rcases List.mem_cons.mp hc with rfl | hc
    · rfl
    · exact voltage_calls_no_mode_set rc regulator l _ c hc
  · exact voltage_calls_no_mode_set rc regulator l k

theorem checked_calls_ldo_no_mode_set (h : Header) (rc : Call → Nat → Int)
    (regulator : drv_npm6001_vreg) (l : vreg_locals)
    (hldo : regulator = DRV_NPM6001_LDO0 ∨ regulator = DRV_NPM6001_LDO1) :
    ∀ c ∈ checked_calls h rc regulator l, c.is_mode_set = false := by
  unfold checked_calls
  split_ifs
  · simp
  · simp
  · unfold mode_calls
    rw [if_neg (by simp [hldo])]
    exact disable_calls_no_mode_set rc regulator _ 0

theorem vreg_absorb_set_mode (l : vreg_locals) (a : String) :
    (l.set_mode = true ∨ is_mode a) → (vreg_absorb l a).set_mode = true := by
  unfold vreg_absorb is_mode
  intro hm
  split_ifs <;> simp_all

theorem vreg_foldl_set_mode (pre : List String) (l : vreg_locals)
    (hm : l.set_mode = true ∨ ∃ a ∈ pre, is_mode a) :
    (pre.foldl vreg_absorb l).set_mode = true := by
  induction pre generalizing l with
  | nil =>
    rcases hm with hm | ⟨a, ha, _⟩
    · exact hm
    · cases ha
  | cons b pre ih =>
    simp only [List.foldl_cons]
    apply ih
    rcases hm with hm | ⟨a, ha, hma⟩
    · exact Or.inl (vreg_absorb_set_mode l b (Or.inl hm))
    · rcases List.mem_cons.mp ha with rfl | ha
      · exact Or.inl (vreg_absorb_set_mode l a (Or.inr hma))
      · exact Or.inr ⟨a, ha, hma⟩

theorem vreg_resolve_set_mode (l : vreg_locals) : (vreg_resolve l).set_mode = l.set_mode := by
  unfold vreg_resolve
  split_ifs <;> rfl

theorem vreg_check_off_ldo_warning (h : Header) (rc : Call → Nat → Int) (argv0 : String)
    (regulator : drv_npm6001_vreg) (l : vreg_locals)
    (hldo : regulator = DRV_NPM6001_LDO0 ∨ regulator = DRV_NPM6001_LDO1)
    (hm : l.set_mode = true) :
    ldo_mode_warning ∈ (vreg_check_off h rc argv0 regulator l Effects.start).out := by
  have hno : ¬ (l.turn_off = true ∧ (regulator = DRV_NPM6001_DCDC0 ∨
      regulator = DRV_NPM6001_DCDC1 ∨ regulator = DRV_NPM6001_DCDC2)) := by
    rcases hldo with rfl | rfl <;> simp
  unfold vreg_check_off vreg_check_mode
  rw [if_neg hno, if_pos ⟨hm, hldo⟩]
  apply List.IsPrefix.subset (vreg_check_voltage_out _ _ _ _ _ _)
  simp [Effects.say, Effects.start, ldo_mode_warning]

theorem cmd_vreg_ldo_no_mode_set (h : Header) (rc : Call → Nat → Int) (argv0 : String)
    (regulator : drv_npm6001_vreg) (hr : vreg_of_name argv0 = some regulator)
    (hldo : regulator = DRV_NPM6001_LDO0 ∨ regulator = DRV_NPM6001_LDO1)
    (args : List String) :
    ∀ c ∈ (cmd_vreg h rc argv0 args).calls, c.is_mode_set = false := by
  cases args with
  | nil => simp [cmd_vreg]
  | cons a rest =>
    cases hs : vreg_scan (a :: rest) vreg_locals.init with
    | error t =>
      rw [cmd_vreg_rejected h rc argv0 regulator a t rest hr hs]
      simp
    | ok l =>
      rw [cmd_vreg_calls h rc argv0 regulator a rest l hr hs]
      exact checked_calls_ldo_no_mode_set h rc regulator _ hldo

theorem vreg_scan_keyword_set_mode (k : String) (post : List String) (l : vreg_locals)
    (hk : is_on_off k) :
    ∃ l', vreg_scan (k :: post) l = Except.ok l' ∧ l'.set_mode = l.set_mode := by
  rcases hk with rfl | rfl | rfl | rfl | rfl <;> simp [vreg_scan]

theorem cmd_vreg_ldo_warning (h : Header) (rc : Call → Nat → Int) (argv0 : String)
    (regulator : drv_npm6001_vreg) (hr : vreg_of_name argv0 = some regulator)
    (hldo : regulator = DRV_NPM6001_LDO0 ∨ regulator = DRV_NPM6001_LDO1)
    (pre rest : List String) (hpre : ∀ a ∈ pre, is_accepted a) (hm : ∃ a ∈ pre, is_mode a)
    (hrest : rest = [] ∨ ∃ k post, rest = k :: post ∧ is_on_off k) :
    ldo_mode_warning ∈ (cmd_vreg h rc argv0 (pre ++ rest)).out := by
  have hfold := vreg_foldl_set_mode pre vreg_locals.init (Or.inr hm)
  have hs : ∃ l, vreg_scan (pre ++ rest) vreg_locals.init = Except.ok l ∧
      l.set_mode = true := by
    rw [vreg_scan_append pre rest _ hpre]
    rcases hrest with rfl | ⟨k, post, rfl, hk⟩
    · exact ⟨_, rfl, hfold⟩
    · obtain ⟨l', hl', hm'⟩ := vreg_scan_keyword_set_mode k post _ hk
      exact ⟨l', hl', hm'.trans hfold⟩
  obtain ⟨l, hl, hlm⟩ := hs
  have hne : (pre ++ rest).length + 1 ≠ 1 := by
    obtain ⟨a, ha, _⟩ := hm
    cases pre with
    | nil => cases ha
    | cons b pre => simp
  unfold cmd_vreg
  rw [if_neg hne]
  simp only [hr, hl]
  exact vreg_check_off_ldo_warning h rc argv0 regulator _ hldo
    ((vreg_resolve_set_mode l).trans hlm)

theorem vreg_foldl_modes (pre : List String) (l : vreg_locals) (hpre : ∀ a ∈ pre, is_mode a) :
    (∀ a ∈ pre, is_accepted a) ∧
    (pre.foldl vreg_absorb l).set_voltage = l.set_voltage ∧
    (pre.foldl vreg_absorb l).turn_on = l.turn_on ∧
    (pre.foldl vreg_absorb l).turn_off = l.turn_off :=
  ⟨fun a ha => Or.inl (hpre a ha), (vreg_foldl_mode pre l hpre).1,
   (vreg_foldl_turn pre l).1, (vreg_foldl_turn pre l).2⟩

theorem cmd_vreg_ldo_on_off (h : Header) (rc : Call → Nat → Int) (argv0 : String)
    (regulator : drv_npm6001_vreg) (hr : vreg_of_name argv0 = some regulator)
    (hldo : regulator = DRV_NPM6001_LDO0 ∨ regulator = DRV_NPM6001_LDO1)
    (pre post : List String) (k : String) (hpre : ∀ a ∈ pre, is_mode a) :
    ((k = "ON" ∨ k = "on") →
      (cmd_vreg h rc argv0 (pre ++ k :: post)).calls = [drv_npm6001_vreg_enable regulator]) ∧
    (is_off k →
      (cmd_vreg h rc argv0 (pre ++ k :: post)).calls = [drv_npm6001_vreg_disable regulator]) := by
  obtain ⟨hacc, hsv, hon, hoff⟩ := vreg_foldl_modes pre vreg_locals.init hpre
  obtain ⟨a, rest, hcons⟩ := append_cons_eq_cons pre k post
  generalize hl : pre.foldl vreg_absorb vreg_locals.init = l at hsv hon hoff
  obtain ⟨mode, voltage, set_mode, set_voltage, turn_on, turn_off⟩ := l
  simp only [vreg_locals.init] at hsv hon hoff
  subst hsv hon hoff
  constructor
  · intro hk
    have hs : vreg_scan (pre ++ k :: post) vreg_locals.init =
        Except.ok ⟨mode, voltage, set_mode, false, true, false⟩ := by
      rw [vreg_scan_append pre _ _ hacc, vreg_scan_on k post _ hk, hl]
    rw [hcons] at hs ⊢
    rw [cmd_vreg_calls h rc argv0 regulator a rest _ hr hs]
    rcases hldo with rfl | rfl <;>
    simp [checked_calls, vreg_resolve, mode_calls, disable_calls, voltage_calls, on_off_calls]
  · intro hk
    have hs : vreg_scan (pre ++ k :: post) vreg_locals.init =
        Except.ok ⟨mode, voltage, set_mode, false, false, true⟩ := by
      rw [vreg_scan_append pre _ _ hacc, vreg_scan_off k post _ hk, hl]
    rw [hcons] at hs ⊢
    rw [cmd_vreg_calls h rc argv0 regulator a rest _ hr hs]
    rcases hldo with rfl | rfl <;>
    simp [checked_calls, vreg_resolve, mode_calls, disable_calls, voltage_calls, on_off_calls]

/-- C5, counterexample: `LDO0 on pwm` contains a mode keyword and writes no warning, and
`LDO0 pwm 2000 off` has an `off` after the mode keyword and calls enable, not disable. -/
theorem cmd_vreg_ldo_mode_counterexample :
    ldo_mode_warning ∉ (cmd_vreg header0 rc_ok "LDO0" ["on", "pwm"]).out ∧
    (cmd_vreg header0 rc_ok "LDO0" ["pwm", "2000", "off"]).calls =
      [drv_npm6001_vreg_voltage_set DRV_NPM6001_LDO0 2000,
       drv_npm6001_vreg_enable DRV_NPM6001_LDO0] := by
  decide

/-- C5, amended: for LDO0 and LDO1, (1) no token list makes the command call
`drv_npm6001_vreg_dcdc_mode_set`; (2) when the loop reaches a mode keyword (the tokens up to
the first on/off/0 keyword are ones it goes past, a mode keyword among them) the warning
"LDO regulators does not have mode selection" is written; (3) when the tokens before the
first on/off/0 keyword are all mode keywords, the calls are exactly enable of the regulator
for `on`/`ON` and exactly disable of the regulator for `off`/`OFF`/`0`. -/
theorem cmd_vreg_ldo_mode (h : Header) (rc : Call → Nat → Int) (argv0 : String)
    (regulator : drv_npm6001_vreg) (hr : vreg_of_name argv0 = some regulator)
    (hldo : regulator = DRV_NPM6001_LDO0 ∨ regulator = DRV_NPM6001_LDO1) :
    (∀ args, ∀ c ∈ (cmd_vreg h rc argv0 args).calls, c.is_mode_set = false) ∧
    (∀ pre rest, (∀ a ∈ pre, is_accepted a) → (∃ a ∈ pre, is_mode a) →
      (rest = [] ∨ ∃ k post, rest = k :: post ∧ is_on_off k) →
      ldo_mode_warning ∈ (cmd_vreg h rc argv0 (pre ++ rest)).out) ∧
    (∀ pre k post, (∀ a ∈ pre, is_mode a) →
      ((k = "ON" ∨ k = "on") →
        (cmd_vreg h rc argv0 (pre ++ k :: post)).calls =
          [drv_npm6001_vreg_enable regulator]) ∧
      (is_off k →
        (cmd_vreg h rc argv0 (pre ++ k :: post)).calls =
          [drv_npm6001_vreg_disable regulator])) :=
  ⟨cmd_vreg_ldo_no_mode_set h rc argv0 regulator hr hldo,
   fun pre rest hpre hm hrest => cmd_vreg_ldo_warning h rc argv0 regulator hr hldo pre rest
     hpre hm hrest,
   fun pre k post hpre => cmd_vreg_ldo_on_off h rc argv0 regulator hr hldo pre post k hpre⟩

/-- C5, witness: `LDO1 pwm off` writes the warning and calls disable of LDO1 only. -/
theorem cmd_vreg_ldo_mode_witness :
    vreg_of_name "LDO1" = some DRV_NPM6001_LDO1 ∧
    ldo_mode_warning ∈ (cmd_vreg header0 rc_ok "LDO1" ["pwm", "off"]).out ∧
    (cmd_vreg header0 rc_ok "LDO1" ["pwm", "off"]).calls =
      [drv_npm6001_vreg_disable DRV_NPM6001_LDO1] :=
  ⟨by decide,
   (cmd_vreg_ldo_mode header0 rc_ok "LDO1" DRV_NPM6001_LDO1 (by decide) (Or.inr rfl)).2.1
     ["pwm"] ["off"] (by decide) ⟨"pwm", by decide, by decide⟩
     (Or.inr ⟨"off", [], rfl, by decide⟩),
   ((cmd_vreg_ldo_mode header0 rc_ok "LDO1" DRV_NPM6001_LDO1 (by decide) (Or.inr rfl)).2.2
     ["pwm"] "off" [] (by decide)).2 (by decide)⟩

/-! ## The token `0` and other tokens of value zero -/

theorem vreg_scan_zero_off (pre post : List String) (l : vreg_locals) :
    vreg_scan (pre ++ "0" :: post) l = vreg_scan (pre ++ "off" :: post) l := by
  induction pre generalizing l with
  | nil => simp [vreg_scan]
  | cons a pre ih =>
    simp only [List.cons_append, vreg_scan]
    split_ifs <;> first | rfl | exact ih _

theorem vreg_scan_zero_value (t : String) (post : List String) (l : vreg_locals)
    (hk : ¬ is_on_off t) (hm : ¬ is_mode t) (hz : to_uint16 (strtol t 0) = 0) :
    vreg_scan (t :: post) l = Except.error t := by
  simp only [is_on_off, is_mode, not_or] at hk hm
  obtain ⟨k1, k2, k3, k4, k5⟩ := hk
  obtain ⟨m1, m2, m3, m4⟩ := hm
  simp [vreg_scan, k1, k2, k3, k4, k5, m1, m2, m3, m4, hz]

/-- C6, counterexample: the tokens `00` and `0x0` have the value 0, and on DCDC3 neither
behaves as `off`: `off` gives one disable call, `00` and `0x0` give no call. -/
theorem cmd_vreg_zero_counterexample :
    strtol "00" 0 = 0 ∧ strtol "0x0" 0 = 0 ∧
    (cmd_vreg header0 rc_ok "DCDC3" ["off"]).calls =
      [drv_npm6001_vreg_disable DRV_NPM6001_DCDC3] ∧
    (cmd_vreg header0 rc_ok "DCDC3" ["00"]).calls = [] ∧
    (cmd_vreg header0 rc_ok "DCDC3" ["0x0"]).calls = [] ∧
    cmd_vreg header0 rc_ok "DCDC3" ["00"] ≠ cmd_vreg header0 rc_ok "DCDC3" ["off"] := by
  decide

/-- C6, amended: the token `0` itself behaves exactly as `off` at every place of every
token list and for every regulator name and driver (same return value, messages and
calls); on DCDC3, LDO0 and LDO1 a command that starts with `0` makes the single call
disable; any other token of value zero that is no keyword (such as `00` or `0x0`), reached
by the loop, is refused with the warning "Unexpected parameter" and no driver call. -/
theorem cmd_vreg_zero_token (h : Header) (rc : Call → Nat → Int) (argv0 : String) :
    (∀ pre post,
      cmd_vreg h rc argv0 (pre ++ "0" :: post) = cmd_vreg h rc argv0 (pre ++ "off" :: post)) ∧
    (∀ regulator post, vreg_of_name argv0 = some regulator →
      (regulator = DRV_NPM6001_DCDC3 ∨ regulator = DRV_NPM6001_LDO0 ∨
        regulator = DRV_NPM6001_LDO1) →
      (cmd_vreg h rc argv0 ("0" :: post)).calls = [drv_npm6001_vreg_disable regulator]) ∧
    (∀ regulator pre t post, vreg_of_name argv0 = some regulator →
      (∀ a ∈ pre, is_accepted a) → ¬ is_on_off t → ¬ is_mode t →
      to_uint16 (strtol t 0) = 0 →
      cmd_vreg h rc argv0 (pre ++ t :: post) =
        ⟨0, [shell_warn "Unexpected parameter: %s" [FmtArg.str t]], []⟩) := by
  refine ⟨?_, ?_, ?_⟩
  · intro pre post
    unfold cmd_vreg
    rw [vreg_scan_zero_off pre post]
    simp only [List.length_append, List.length_cons]
  · intro regulator post hr hreg
    have hs : vreg_scan ("0" :: post) vreg_locals.init =
        Except.ok { vreg_locals.init with turn_off := true } :=
      vreg_scan_off "0" post _ (by decide)
    rw [cmd_vreg_calls h rc argv0 regulator "0" post _ hr hs]
    rcases hreg with rfl | rfl | rfl <;>
    simp [checked_calls, vreg_resolve, vreg_locals.init, mode_calls, disable_calls,
      voltage_calls, on_off_calls]
  · intro regulator pre t post hr hpre hk hm hz
    have hs : vreg_scan (pre ++ t :: post) vreg_locals.init = Except.error t := by
      rw [vreg_scan_append pre _ _ hpre, vreg_scan_zero_value t post _ hk hm hz]
    obtain ⟨a, rest, hcons⟩ := append_cons_eq_cons pre t post
    rw [hcons] at hs ⊢
    exact cmd_vreg_rejected h rc argv0 regulator a t rest hr hs

/-- C6, witness: on LDO0, `pwm 0 on` is `pwm off on`, `0` alone disables, and `pwm 0x0` is
refused. -/
theorem cmd_vreg_zero_token_witness :
    cmd_vreg header0 rc_ok "LDO0" ["pwm", "0", "on"] =
      cmd_vreg header0 rc_ok "LDO0" ["pwm", "off", "on"] ∧
    (cmd_vreg header0 rc_ok "LDO0" ["0"]).calls = [drv_npm6001_vreg_disable DRV_NPM6001_LDO0] ∧
    cmd_vreg header0 rc_ok "LDO0" ["pwm", "0x0"] =
      ⟨0, [shell_warn "Unexpected parameter: %s" [FmtArg.str "0x0"]], []⟩ :=
  ⟨(cmd_vreg_zero_token header0 rc_ok "LDO0").1 ["pwm"] ["on"],
   (cmd_vreg_zero_token header0 rc_ok "LDO0").2.1 DRV_NPM6001_LDO0 [] (by decide)
     (Or.inr (Or.inl rfl)),
   (cmd_vreg_zero_token header0 rc_ok "LDO0").2.2 DRV_NPM6001_LDO0 ["pwm"] "0x0" []
     (by decide) (by decide) (by decide) (by decide) (by decide)⟩

/-! ## Register access -/

set_option maxRecDepth 100000 in
theorem reg_value_encodings :
    ∀ v < 256, reg_value (decimal_text v) = v ∧ reg_value (hex_text v) = v ∧
      reg_value (binary_text v) = v := by
  decide

theorem register_names_not_reg : ∀ n ∈ REGISTER_NAME_LIST, n ≠ "reg" := by
  decide

theorem find_register (h : Header) (names : List String) (n : String) (hn : n ∈ names) :
    (names.map (fun m => (⟨m, h.offsetof m % 256⟩ : reg_name_addr_pair))).find?
      (fun r => decide (n = r.name)) = some ⟨n, h.offsetof n % 256⟩ := by
  induction names with
  | nil => cases hn
  | cons a rest ih =>
    by_cases hna : n = a
    · subst hna
      simp [List.find?]
    · have hrest : n ∈ rest := by
        rcases List.mem_cons.mp hn with hh | hh
        · exact absurd hh hna
        · exact hh
      simp only [List.map_cons, List.find?, hna, decide_False]
      exact ih hrest

theorem twi_read_calls (rc : Call → Nat → Int) (rd : Nat) (s : Effects) (reg_addr : Nat) :
    (twi_read rc rd s reg_addr).2.calls = s.calls ++ [i2c_write_read reg_addr] := by
  unfold twi_read
  simp only [Effects.call, Effects.say]
  split_ifs <;> rfl

theorem twi_write_calls (rc : Call → Nat → Int) (s : Effects) (reg_addr reg_val : Nat) :
    (twi_write rc s reg_addr reg_val).calls = s.calls ++ [i2c_transfer reg_addr reg_val] := by
  unfold twi_write
  simp only [Effects.call, Effects.say]
  split_ifs <;> rfl

theorem cmd_reg_named_calls (h : Header) (rc : Call → Nat → Int) (rd : Nat) (n : String)
    (hn : n ∈ REGISTER_NAME_LIST) :
    (cmd_reg_named h rc rd [n]).calls = [i2c_write_read (h.offsetof n % 256)] ∧
    ∀ a rest, (cmd_reg_named h rc rd (n :: a :: rest)).calls =
      [i2c_transfer (h.offsetof n % 256) (reg_value a)] := by
  have hreg := register_names_not_reg n hn
  have hf := find_register h REGISTER_NAME_LIST n hn
  constructor
  · unfold cmd_reg_named registers
    simp only [hreg, if_false, hf, Effects.done, Effects.say, twi_read_calls]
    rfl
  · intro a rest
    unfold cmd_reg_named registers
    simp only [hreg, if_false, hf, Effects.done, twi_write_calls]
    rfl

/-- C8: for every entry of the table `registers`, the command with the name alone makes
exactly one bus transaction, the one-byte read at the address of the entry, and for every
value `v` in 0..255 the command with the name and the decimal text of `v`, with `0x` and
the hexadecimal text, or with `0b` and the binary text, makes exactly one bus transaction,
the write of `v` to that address; this holds whatever the bus returns. -/
theorem cmd_reg_named_read_write (h : Header) (rc : Call → Nat → Int) (rd : Nat) :
    ∀ e ∈ registers h,
      (cmd_reg_named h rc rd [e.name]).calls = [i2c_write_read e.addr] ∧
      ∀ v < 256,
        (cmd_reg_named h rc rd [e.name, decimal_text v]).calls = [i2c_transfer e.addr v] ∧
        (cmd_reg_named h rc rd [e.name, hex_text v]).calls = [i2c_transfer e.addr v] ∧
        (cmd_reg_named h rc rd [e.name, binary_text v]).calls = [i2c_transfer e.addr v] := by
  intro e he
  obtain ⟨n, hn, rfl⟩ := List.mem_map.mp he
  obtain ⟨hread, hwrite⟩ := cmd_reg_named_calls h rc rd n hn
  refine ⟨hread, ?_⟩
  intro v hv
  obtain ⟨h10, h16, h2⟩ := reg_value_encodings v hv
  refine ⟨?_, ?_, ?_⟩
  · rw [hwrite, h10]
  · rw [hwrite, h16]
  · rw [hwrite, h2]

/-- C8, witness: the entry of `WDKICK` and the value 165, written `165`, `0xa5` and
`0b10100101`. -/
theorem cmd_reg_named_read_write_witness :
    (⟨"WDKICK", 0⟩ : reg_name_addr_pair) ∈ registers header0 ∧
    (cmd_reg_named header0 rc_ok 0 ["WDKICK"]).calls = [i2c_write_read 0] ∧
    (cmd_reg_named header0 rc_ok 0 ["WDKICK", "165"]).calls = [i2c_transfer 0 165] ∧
    (cmd_reg_named header0 rc_ok 0 ["WDKICK", "0xa5"]).calls = [i2c_transfer 0 165] ∧
    (cmd_reg_named header0 rc_ok 0 ["WDKICK", "0b10100101"]).calls = [i2c_transfer 0 165] :=
  ⟨by decide,
   (cmd_reg_named_read_write header0 rc_ok 0 ⟨"WDKICK", 0⟩ (by decide)).1,
   ((cmd_reg_named_read_write header0 rc_ok 0 ⟨"WDKICK", 0⟩ (by decide)).2 165 (by decide)).1,
   ((cmd_reg_named_read_write header0 rc_ok 0 ⟨"WDKICK", 0⟩ (by decide)).2 165
     (by decide)).2.1,
   ((cmd_reg_named_read_write header0 rc_ok 0 ⟨"WDKICK", 0⟩ (by decide)).2 165
     (by decide)).2.2⟩

/-! ## Return values of the handlers -/

theorem cmd_reg_named_ret (h : Header) (rc : Call → Nat → Int) (rd : Nat) (argv0 : String)
    (args : List String) : (cmd_reg_named h rc rd (argv0 :: args)).ret = 0 := by
  unfold cmd_reg_named
  simp only [Effects.done]
  split_ifs
  · rfl
  · cases (registers h).find? (fun r => decide (argv0 = r.name)) with
    | none => rfl
    | some reg => cases args <;> rfl

theorem cmd_wd_enable_ret (rc : Call → Nat → Int) (argv : List String) :
    (cmd_wd_enable rc argv).ret = 0 := by
  unfold cmd_wd_enable
  split
  · simp only [Effects.call, Effects.say, Effects.done]
    split_ifs <;> rfl
  · rfl

theorem cmd_hibernate_ret (rc : Call → Nat → Int) (argv : List String) :
    (cmd_hibernate rc argv).ret = 0 := by
  unfold cmd_hibernate
  split
  · simp only [Effects.call, Effects.say, Effects.done]
    split_ifs <;> rfl
  · rfl

theorem int_apply_ret (rc : Call → Nat → Int) (interrupt : drv_npm6001_int) (enable : Bool) :
    (int_apply rc interrupt enable).ret = 0 := by
  unfold int_apply
  simp only [Effects.call, Effects.say, Effects.done]
  split_ifs <;> rfl

theorem cmd_int_ret (rc : Call → Nat → Int) (argv : List String) :
    (cmd_int rc argv).ret = 0 := by
  unfold cmd_int
  split
  · split
    · rfl
    · split_ifs <;> first | rfl | exact int_apply_ret _ _ _
  · rfl

theorem cmd_wd_disable_ret (rc : Call → Nat → Int) (argv : List String) :
    (cmd_wd_disable rc argv).ret = 0 := by
  unfold cmd_wd_disable
  simp only [Effects.call, Effects.say, Effects.done]
  split_ifs <;> rfl

theorem cmd_wd_kick_ret (rc : Call → Nat → Int) (argv : List String) :
    (cmd_wd_kick rc argv).ret = 0 := by
  unfold cmd_wd_kick
  simp only [Effects.call, Effects.say, Effects.done]
  split_ifs <;> rfl

/-- C7, counterexample: with an empty argument vector (`argc` 0) `cmd_reg_named` returns
`-ENOEXEC`, which is not 0. -/
theorem cmd_reg_named_argc_zero_counterexample :
    (cmd_reg_named header0 rc_ok 0 []).ret = -ENOEXEC ∧
    (cmd_reg_named header0 rc_ok 0 []).ret ≠ 0 := by
  decide

/-- C7, amended: on every argument vector with at least one element (`argc` at least 1),
for every outcome of the driver and of the bus, each of `cmd_reg_named`, `cmd_vreg`,
`cmd_wd_enable`, `cmd_wd_disable`, `cmd_wd_kick`, `cmd_int`, `cmd_hibernate` and
`cmd_npm6001` returns 0; with `argc` 0, `cmd_reg_named` returns `-ENOEXEC`. -/
theorem handlers_return_zero (h : Header) (rc : Call → Nat → Int) (rd : Nat)
    (argv0 : String) (args : List String) :
    (cmd_reg_named h rc rd (argv0 :: args)).ret = 0 ∧
    (cmd_vreg h rc argv0 args).ret = 0 ∧
    (cmd_wd_enable rc (argv0 :: args)).ret = 0 ∧
    (cmd_wd_disable rc (argv0 :: args)).ret = 0 ∧
    (cmd_wd_kick rc (argv0 :: args)).ret = 0 ∧
    (cmd_int rc (argv0 :: args)).ret = 0 ∧
    (cmd_hibernate rc (argv0 :: args)).ret = 0 ∧
    (cmd_npm6001 (argv0 :: args)).ret = 0 ∧
    (cmd_reg_named h rc rd []).ret = -ENOEXEC :=
  ⟨cmd_reg_named_ret h rc rd argv0 args, cmd_vreg_ret h rc argv0 args,
   cmd_wd_enable_ret rc _, cmd_wd_disable_ret rc _, cmd_wd_kick_ret rc _, cmd_int_ret rc _,
   cmd_hibernate_ret rc _, rfl, rfl⟩

/-! ## Unknown names -/

/-- C9: when the first token is none of `DCDC0`, `DCDC1`, `DCDC2`, `DCDC3`, `LDO0`, `LDO1`,
`cmd_vreg` makes no driver call, and when the first token is none of `THWARN`, `DCDC0OC`,
`DCDC1OC`, `DCDC2OC`, `DCDC3OC`, `cmd_int` makes no driver call, whatever tokens follow;
the comparison is exact, so a name in lower case is unknown. -/
theorem unknown_name_no_call (h : Header) (rc : Call → Nat → Int) (argv0 : String)
    (args : List String) :
    (argv0 ∉ ["DCDC0", "DCDC1", "DCDC2", "DCDC3", "LDO0", "LDO1"] →
      (cmd_vreg h rc argv0 args).calls = []) ∧
    (argv0 ∉ ["THWARN", "DCDC0OC", "DCDC1OC", "DCDC2OC", "DCDC3OC"] →
      (cmd_int rc (argv0 :: args)).calls = []) := by
  constructor
  · intro hn
    simp only [List.mem_cons, List.mem_singleton, List.not_mem_nil, or_false, not_or] at hn
    obtain ⟨h0, h1, h2, h3, h4, h5⟩ := hn
    have hv : vreg_of_name argv0 = none := by
      simp [vreg_of_name, h0, h1, h2, h3, h4, h5]
    unfold cmd_vreg
    simp only [hv]
    split_ifs <;> rfl
  · intro hn
    simp only [List.mem_cons, List.mem_singleton, List.not_mem_nil, or_false, not_or] at hn
    obtain ⟨h0, h1, h2, h3, h4⟩ := hn
    have hv : int_of_name argv0 = none := by
      simp [int_of_name, h0, h1, h2, h3, h4]
    unfold cmd_int
    cases args with
    | nil => rfl
    | cons a rest => simp only [hv]

/-- C9, witness: `dcdc3 1000` and `thwarn enable`. -/
theorem unknown_name_no_call_witness :
    (cmd_vreg header0 rc_ok "dcdc3" ["1000"]).calls = [] ∧
    (cmd_int rc_ok ["thwarn", "enable"]).calls = [] :=
  ⟨(unknown_name_no_call header0 rc_ok "dcdc3" ["1000"]).1 (by decide),
   (unknown_name_no_call header0 rc_ok "thwarn" ["enable"]).2 (by decide)⟩

/-! ## The action token of `cmd_int` -/

theorem int_apply_calls (rc : Call → Nat → Int) (interrupt : drv_npm6001_int)
    (enable : Bool) :
    (int_apply rc interrupt enable).calls =
      [if enable then drv_npm6001_int_enable interrupt
       else drv_npm6001_int_disable interrupt] := by
  unfold int_apply
  simp only [Effects.call, Effects.say, Effects.done, Effects.start]
  split_ifs <;> simp

/-- C10, counterexample: `THWARN Enable` and `THWARN eNaBlE` get the warning
"Invalid option" and no driver call, although the token is `enable` when case is
ignored. -/
theorem cmd_int_mixed_case_counterexample :
    cmd_int rc_ok ["THWARN", "Enable"] = ⟨0, [shell_warn "Invalid option" []], []⟩ ∧
    cmd_int rc_ok ["THWARN", "eNaBlE"] = ⟨0, [shell_warn "Invalid option" []], []⟩ ∧
    (cmd_int rc_ok ["THWARN", "Enable"]).calls ≠
      [drv_npm6001_int_enable DRV_NPM6001_INT_THERMAL_WARNING] := by
  decide

/-- C10, amended: for every valid interrupt name, the action token is accepted in two
spellings each: `enable` or `ENABLE` gives exactly one `drv_npm6001_int_enable` call for
that source, `disable` or `DISABLE` exactly one `drv_npm6001_int_disable` call; every
other token, mixed case included, gets the warning "Invalid option" and no driver call. -/
theorem cmd_int_action (rc : Call → Nat → Int) (argv0 argv1 : String) (rest : List String)
    (interrupt : drv_npm6001_int) (hi : int_of_name argv0 = some interrupt) :
    ((argv1 = "ENABLE" ∨ argv1 = "enable") →
      (cmd_int rc (argv0 :: argv1 :: rest)).calls = [drv_npm6001_int_enable interrupt]) ∧
    ((argv1 = "DISABLE" ∨ argv1 = "disable") →
      (cmd_int rc (argv0 :: argv1 :: rest)).calls = [drv_npm6001_int_disable interrupt]) ∧
    (argv1 ∉ ["ENABLE", "enable", "DISABLE", "disable"] →
      cmd_int rc (argv0 :: argv1 :: rest) = ⟨0, [shell_warn "Invalid option" []], []⟩) := by
  refine ⟨?_, ?_, ?_⟩
  · intro he
    unfold cmd_int
    simp only [hi, he, if_true, int_apply_calls]
  · intro hd
    have hne : ¬ (argv1 = "ENABLE" ∨ argv1 = "enable") := by
      rcases hd with rfl | rfl <;> decide
    unfold cmd_int
    simp only [hi, hd, hne, if_true, if_false, int_apply_calls, Bool.false_eq_true]
  · intro hn
    simp only [List.mem_cons, List.mem_singleton, List.not_mem_nil, or_false, not_or] at hn
    obtain ⟨h0, h1, h2, h3⟩ := hn
    unfold cmd_int
    simp [hi, h0, h1, h2, h3]

/-- C10, witness: `DCDC1OC DISABLE`, and `DCDC1OC Disable`, which is refused. -/
theorem cmd_int_action_witness :
    int_of_name "DCDC1OC" = some DRV_NPM6001_INT_DCDC1_OVERCURRENT ∧
    (cmd_int rc_ok ["DCDC1OC", "DISABLE"]).calls =
      [drv_npm6001_int_disable DRV_NPM6001_INT_DCDC1_OVERCURRENT] ∧
    cmd_int rc_ok ["DCDC1OC", "Disable"] = ⟨0, [shell_warn "Invalid option" []], []⟩ :=
  ⟨by decide,
   (cmd_int_action rc_ok "DCDC1OC" "DISABLE" [] DRV_NPM6001_INT_DCDC1_OVERCURRENT
     (by decide)).2.1 (Or.inl rfl),
   (cmd_int_action rc_ok "DCDC1OC" "Disable" [] DRV_NPM6001_INT_DCDC1_OVERCURRENT
     (by decide)).2.2 (by decide)⟩

/-! ## Watchdog and hibernation -/

theorem cmd_wd_enable_run (rc : Call → Nat → Int) (argv0 t : String) :
    (cmd_wd_enable rc [argv0, t]).calls =
      [drv_npm6001_watchdog_enable (to_uint32 (strtol t 0))] ∧
    (cmd_wd_enable rc [argv0, t]).out =
      [if rc (drv_npm6001_watchdog_enable (to_uint32 (strtol t 0))) 0 = -EINVAL then
         shell_warn "Invalid watchdog timeout" []
       else if rc (drv_npm6001_watchdog_enable (to_uint32 (strtol t 0))) 0 ≠ 0 then
         shell_warn "Failed to enable watchdog" []
       else shell_print "Successfully enabled watchdog" []] := by
  unfold cmd_wd_enable
  simp only [Effects.call, Effects.say, Effects.done, Effects.start, List.length_nil]
  split_ifs <;> simp

theorem cmd_hibernate_calls (rc : Call → Nat → Int) (argv0 t : String) :
    (cmd_hibernate rc [argv0, t]).calls =
      [drv_npm6001_hibernate (to_uint32 (strtol t 0))] := by
  unfold cmd_hibernate
  simp only [Effects.call, Effects.say, Effects.done, Effects.start, List.length_nil]
  split_ifs <;> simp

theorem digit_value_not_zero_char (c : Char) (hd : 10 ≤ digit_value c) : c ≠ '0' := by
  intro hc
  subst hc
  revert hd
  decide

theorem strtol_no_number (t : String) (c : Char) (cs : List Char) (ht : t.data = c :: cs)
    (hsp : isspace c = false) (hm : c ≠ '-') (hp : c ≠ '+') (hd : 10 ≤ digit_value c) :
    strtol t 0 = 0 := by
  have h0 := digit_value_not_zero_char c hd
  have hlt : ¬ digit_value c < 10 := by omega
  unfold strtol strtol_chars
  rw [ht]
  simp only [skip_space, hsp, Bool.false_eq_true, if_false, hm, hp]
  cases cs with
  | nil => simp [magnitude, accumulate, h0, hlt, clamp_long, LONG_MAX]
  | cons x rest => simp [magnitude, accumulate, h0, hlt, clamp_long, LONG_MAX]

theorem reg_value_no_number (t : String) (c : Char) (cs : List Char) (ht : t.data = c :: cs)
    (hsp : isspace c = false) (hm : c ≠ '-') (hp : c ≠ '+') (hd : 10 ≤ digit_value c) :
    reg_value t = 0 := by
  have h0 := digit_value_not_zero_char c hd
  have hs := strtol_no_number t c cs ht hsp hm hp hd
  unfold reg_value
  rw [if_neg, hs]
  · rfl
  · rw [ht]
    intro hh
    cases cs with
    | nil => simp at hh
    | cons x rest =>
      simp only [List.take_succ_cons, List.cons.injEq] at hh
      exact h0 hh.1.1

/-- C12, counterexample: the token `xyz` is no number, and `cmd_reg_named` writes 0 to the
register, `cmd_wd_enable` calls the driver with the timeout 0 and `cmd_hibernate` calls the
driver with the timeout 0; none of them writes a warning when the call succeeds. -/
theorem malformed_token_counterexample :
    cmd_reg_named header0 rc_ok 0 ["WDKICK", "xyz"] =
      ⟨0, [shell_print "Writing 0x%02X to %s" [FmtArg.num 0, FmtArg.str "WDKICK"]],
       [i2c_transfer 0 0]⟩ ∧
    cmd_wd_enable rc_ok ["enable", "xyz"] =
      ⟨0, [shell_print "Successfully enabled watchdog" []], [drv_npm6001_watchdog_enable 0]⟩ ∧
    cmd_hibernate rc_ok ["hibernate", "xyz"] =
      ⟨0, [shell_print "Successfully enabled hibernation mode" []],
       [drv_npm6001_hibernate 0]⟩ := by
  decide

/-- C12, amended: a token that starts with a character that is neither white space, a sign
nor a decimal digit (such as `xyz`) has the value 0 for `strtol`.  In `cmd_vreg` such a
token, when the loop reaches it and it is no keyword, ends the command with the warning
"Unexpected parameter", return 0 and no driver call.  `cmd_reg_named`, `cmd_wd_enable` and
`cmd_hibernate` do not look at how the token was read: they make their one bus write or
driver call with the value 0. -/
theorem malformed_token (h : Header) (rc : Call → Nat → Int) (rd : Nat) (t : String)
    (c : Char) (cs : List Char) (ht : t.data = c :: cs)
    (hsp : isspace c = false) (hm : c ≠ '-') (hp : c ≠ '+') (hd : 10 ≤ digit_value c) :
    strtol t 0 = 0 ∧
    (∀ argv0 regulator pre post, vreg_of_name argv0 = some regulator →
      (∀ a ∈ pre, is_accepted a) → ¬ is_on_off t → ¬ is_mode t →
      cmd_vreg h rc argv0 (pre ++ t :: post) =
        ⟨0, [shell_warn "Unexpected parameter: %s" [FmtArg.str t]], []⟩) ∧
    (∀ n ∈ REGISTER_NAME_LIST, ∀ rest,
      (cmd_reg_named h rc rd (n :: t :: rest)).calls =
        [i2c_transfer (h.offsetof n % 256) 0]) ∧
    (∀ argv0, (cmd_wd_enable rc [argv0, t]).calls = [drv_npm6001_watchdog_enable 0]) ∧
    (∀ argv0, (cmd_hibernate rc [argv0, t]).calls = [drv_npm6001_hibernate 0]) := by
  have hs := strtol_no_number t c cs ht hsp hm hp hd
  have hr := reg_value_no_number t c cs ht hsp hm hp hd
  refine ⟨hs, ?_, ?_, ?_, ?_⟩
  · intro argv0 regulator pre post hreg hpre hk hmode
    have hz : to_uint16 (strtol t 0) = 0 := by
      rw [hs]
      rfl
    have hscan : vreg_scan (pre ++ t :: post) vreg_locals.init = Except.error t := by
      rw [vreg_scan_append pre _ _ hpre, vreg_scan_zero_value t post _ hk hmode hz]
    obtain ⟨a, rest, hcons⟩ := append_cons_eq_cons pre t post
    rw [hcons] at hscan ⊢
    exact cmd_vreg_rejected h rc argv0 regulator a t rest hreg hscan
  · intro n hn rest
    rw [(cmd_reg_named_calls h rc rd n hn).2 t rest, hr]
  · intro argv0
    rw [(cmd_wd_enable_run rc argv0 t).1, hs]
    rfl
  · intro argv0
    rw [cmd_hibernate_calls rc argv0 t, hs]
    rfl

/-- C12, witness: the token `xyz`, after `pwm` on DCDC3, as the value of `WDKICK` and as a
timeout. -/
theorem malformed_token_witness :
    strtol "xyz" 0 = 0 ∧
    cmd_vreg header0 rc_ok "DCDC3" ["pwm", "xyz"] =
      ⟨0, [shell_warn "Unexpected parameter: %s" [FmtArg.str "xyz"]], []⟩ ∧
    (cmd_reg_named header0 rc_ok 0 ["WDKICK", "xyz"]).calls = [i2c_transfer 0 0] ∧
    (cmd_wd_enable rc_ok ["enable", "xyz"]).calls = [drv_npm6001_watchdog_enable 0] ∧
    (cmd_hibernate rc_ok ["hibernate", "xyz"]).calls = [drv_npm6001_hibernate 0] :=
  ⟨(malformed_token header0 rc_ok 0 "xyz" 'x' ['y', 'z'] rfl (by decide) (by decide)
      (by decide) (by decide)).1,
   (malformed_token header0 rc_ok 0 "xyz" 'x' ['y', 'z'] rfl (by decide) (by decide)
      (by decide) (by decide)).2.1 "DCDC3" DRV_NPM6001_DCDC3 ["pwm"] [] (by decide)
      (by decide) (by decide) (by decide),
   (malformed_token header0 rc_ok 0 "xyz" 'x' ['y', 'z'] rfl (by decide) (by decide)
      (by decide) (by decide)).2.2.1 "WDKICK" (by decide) [],
   (malformed_token header0 rc_ok 0 "xyz" 'x' ['y', 'z'] rfl (by decide) (by decide)
      (by decide) (by decide)).2.2.2.1 "enable",
   (malformed_token header0 rc_ok 0 "xyz" 'x' ['y', 'z'] rfl (by decide) (by decide)
      (by decide) (by decide)).2.2.2.2 "hibernate"⟩

/-! ## Lemmas on lists of calls -/

theorem nothing_after (isY isX : Call → Bool) (P T : List Call)
    (hP : ∀ c ∈ P, isY c = false) (hT : ∀ c ∈ T, isX c = false)
    (p q : List Call) (y : Call) (hy : isY y = true) (heq : P ++ T = p ++ y :: q) :
    ∀ c ∈ q, isX c = false := by
  induction P generalizing p with
  | nil =>
    intro c hc
    apply hT
    rw [List.nil_append] at heq
    rw [heq]
    exact List.mem_append_right p (List.mem_cons_of_mem y hc)
  | cons a P ih =>
    cases p with
    | nil =>
      simp only [List.cons_append, List.nil_append, List.cons.injEq] at heq
      have := hP a (List.mem_cons_self a P)
      rw [heq.1, hy] at this
      cases this
    | cons b p =>
      simp only [List.cons_append, List.cons.injEq] at heq
      exact ih (fun c hc => hP c (List.mem_cons_of_mem a hc)) p heq.2

theorem nothing_before (isY isX : Call → Bool) (P T : List Call)
    (hP : ∀ c ∈ P, isY c = false ∧ isX c = false) (hT : ∀ c ∈ T.tail, isY c = false)
    (p q : List Call) (y : Call) (hy : isY y = true) (heq : P ++ T = p ++ y :: q) :
    ∀ c ∈ p, isX c = false := by
  induction P generalizing p with
  | nil =>
    cases p with
    | nil => simp
    | cons b p =>
      rw [List.nil_append] at heq
      have hy' : isY y = false := by
        apply hT
        rw [heq]
        exact List.mem_append_right p (List.mem_cons_self y q)
      rw [hy] at hy'
      cases hy'
  | cons a P ih =>
    cases p with
    | nil => simp
    | cons b p =>
      simp only [List.cons_append, List.cons.injEq] at heq
      intro c hc
      rcases List.mem_cons.mp hc with rfl | hc
      · rw [← heq.1]
        exact (hP a (List.mem_cons_self a P)).2
      · exact ih (fun c hc => hP c (List.mem_cons_of_mem a hc)) p heq.2 c hc

theorem nothing_after_last (isY : Call → Bool) (P F : List Call)
    (hP : ∀ c ∈ P, isY c = false) (hF : F.length ≤ 1)
    (p q : List Call) (y : Call) (hy : isY y = true) (heq : P ++ F = p ++ y :: q) :
    q = [] := by
  induction P generalizing p with
  | nil =>
    rw [List.nil_append] at heq
    rw [heq] at hF
    simp only [List.length_append, List.length_cons] at hF
    have : q.length = 0 := by omega
    exact List.length_eq_zero.mp this
  | cons a P ih =>
    cases p with
    | nil =>
      simp only [List.cons_append, List.nil_append, List.cons.injEq] at heq
      have := hP a (List.mem_cons_self a P)
      rw [heq.1, hy] at this
      cases this
    | cons b p =>
      simp only [List.cons_append, List.cons.injEq] at heq
      exact ih (fun c hc => hP c (List.mem_cons_of_mem a hc)) p heq.2

theorem mode_set_kind (c : Call) (hc : c.is_mode_set = true) :
    c.is_voltage_set = false ∧ c.is_enable = false ∧ c.is_disable = false := by
  cases c <;> simp_all [Call.is_mode_set, Call.is_voltage_set, Call.is_enable, Call.is_disable]

theorem voltage_set_kind (c : Call) (hc : c.is_voltage_set = true) :
    c.is_mode_set = false ∧ c.is_enable = false ∧ c.is_disable = false := by
  cases c <;> simp_all [Call.is_mode_set, Call.is_voltage_set, Call.is_enable, Call.is_disable]

theorem enable_kind (c : Call) (hc : c.is_enable = true) :
    c.is_mode_set = false ∧ c.is_voltage_set = false ∧ c.is_disable = false := by
  cases c <;> simp_all [Call.is_mode_set, Call.is_voltage_set, Call.is_enable, Call.is_disable]

theorem disable_kind (c : Call) (hc : c.is_disable = true) :
    c.is_mode_set = false ∧ c.is_voltage_set = false ∧ c.is_enable = false := by
  cases c <;> simp_all [Call.is_mode_set, Call.is_voltage_set, Call.is_enable, Call.is_disable]

/-! ## The calls of `cmd_vreg` in four groups -/

theorem on_off_calls_final (regulator : drv_npm6001_vreg) (l : vreg_locals) :
    (on_off_calls regulator l).length ≤ 1 ∧
    ∀ c ∈ on_off_calls regulator l,
      c = drv_npm6001_vreg_enable regulator ∨ c = drv_npm6001_vreg_disable regulator := by
  unfold on_off_calls
  split_ifs <;> simp

theorem final_calls_final (rc : Call → Nat → Int) (regulator : drv_npm6001_vreg)
    (l : vreg_locals) (k : Nat) :
    (final_calls rc regulator l k).length ≤ 1 ∧
    ∀ c ∈ final_calls rc regulator l k,
      c = drv_npm6001_vreg_enable regulator ∨ c = drv_npm6001_vreg_disable regulator := by
  unfold final_calls
  split_ifs <;> first | exact on_off_calls_final regulator l | simp

theorem disable_calls_groups (rc : Call → Nat → Int) (regulator : drv_npm6001_vreg)
    (l : vreg_locals) (k : Nat) :
    disable_calls rc regulator l k =
      (if l.set_voltage = true ∧ regulator = DRV_NPM6001_DCDC3 then
        [drv_npm6001_vreg_disable DRV_NPM6001_DCDC3, drv_npm6001_vreg_disable DRV_NPM6001_DCDC3]
       else []) ++
      (if l.set_voltage = true then [drv_npm6001_vreg_voltage_set regulator l.voltage]
       else []) ++
      final_calls rc regulator l k := by
  unfold disable_calls voltage_calls final_calls
  by_cases hv : l.set_voltage = true <;> by_cases hr : regulator = DRV_NPM6001_DCDC3 <;>
  simp [hv, hr, Nat.add_assoc]

theorem cmd_vreg_calls_cases (h : Header) (rc : Call → Nat → Int) (argv0 : String)
    (args : List String) :
    (cmd_vreg h rc argv0 args).calls = [] ∨
    ∃ regulator l, vreg_of_name argv0 = some regulator ∧
      vreg_scan args vreg_locals.init = Except.ok l ∧
      (cmd_vreg h rc argv0 args).calls = checked_calls h rc regulator (vreg_resolve l) := by
  cases args with
  | nil =>
    left
    simp [cmd_vreg]
  | cons a rest =>
    cases hr : vreg_of_name argv0 with
    | none =>
      left
      unfold cmd_vreg
      simp only [hr]
      split_ifs <;> rfl
    | some regulator =>
      cases hs : vreg_scan (a :: rest) vreg_locals.init with
      | error t =>
        left
        rw [cmd_vreg_rejected h rc argv0 regulator a t rest hr hs]
      | ok l =>
        right
        exact ⟨regulator, l, rfl, rfl, cmd_vreg_calls h rc argv0 regulator a rest l hr hs⟩

/-! ## Commands whose last voltage token is accepted -/

theorem vreg_scan_keyword (k : String) (post : List String) (l : vreg_locals)
    (hk : is_on_off k) :
    (is_off k ∧ vreg_scan (k :: post) l = Except.ok { l with turn_off := true }) ∨
    ((k = "ON" ∨ k = "on") ∧ vreg_scan (k :: post) l = Except.ok { l with turn_on := true }) := by
  rcases hk with rfl | rfl | rfl | rfl | rfl
  · exact Or.inr ⟨Or.inl rfl, vreg_scan_on _ post l (Or.inl rfl)⟩
  · exact Or.inr ⟨Or.inr rfl, vreg_scan_on _ post l (Or.inr rfl)⟩
  · exact Or.inl ⟨Or.inl rfl, vreg_scan_off _ post l (Or.inl rfl)⟩
  · exact Or.inl ⟨Or.inr (Or.inl rfl), vreg_scan_off _ post l (Or.inr (Or.inl rfl))⟩
  · exact Or.inl ⟨Or.inr (Or.inr rfl), vreg_scan_off _ post l (Or.inr (Or.inr rfl))⟩

theorem vreg_scan_voltage_last (pre mid rest : List String) (t : String)
    (hpre : ∀ a ∈ pre, is_accepted a) (ht : ¬ is_mode t)
    (hv : to_uint16 (strtol t 0) ≠ 0) (hmid : ∀ a ∈ mid, is_mode a)
    (hrest : rest = [] ∨ ∃ k post, rest = k :: post ∧ is_on_off k) :
    ∃ l, vreg_scan (pre ++ t :: (mid ++ rest)) vreg_locals.init = Except.ok l ∧
      l.set_voltage = true ∧ l.voltage = to_uint16 (strtol t 0) ∧
      (l.turn_off = true → ∃ k post, rest = k :: post ∧ is_off k) := by
  have hmid_acc : ∀ a ∈ mid, is_accepted a := fun a ha => Or.inl (hmid a ha)
  have hs : vreg_scan (pre ++ t :: (mid ++ rest)) vreg_locals.init =
      vreg_scan rest
        (mid.foldl vreg_absorb (vreg_absorb (pre.foldl vreg_absorb vreg_locals.init) t)) := by
    rw [vreg_scan_append pre _ _ hpre, vreg_scan_accepted t _ _ (Or.inr hv),
      vreg_scan_append mid rest _ hmid_acc]
  rw [hs]
  have hl4 := vreg_foldl_turn pre vreg_locals.init
  generalize pre.foldl vreg_absorb vreg_locals.init = l0 at hl4 ⊢
  have hl1 := vreg_absorb_voltage l0 t ht
  have hl2 := vreg_foldl_mode mid (vreg_absorb l0 t) hmid
  have hl3 := vreg_foldl_turn mid (vreg_absorb l0 t)
  generalize mid.foldl vreg_absorb (vreg_absorb l0 t) = l2 at hl2 hl3 ⊢
  rw [hl1] at hl2 hl3
  simp only [vreg_locals.init] at hl2 hl3 hl4
  obtain ⟨hsv, hvolt⟩ := hl2
  obtain ⟨hon, hoff⟩ := hl3
  rw [hl4.2] at hoff
  rcases hrest with rfl | ⟨k, post, rfl, hk⟩
  · refine ⟨l2, rfl, hsv, hvolt, ?_⟩
    intro hh
    rw [hoff] at hh
    cases hh
  · rcases vreg_scan_keyword k post l2 hk with ⟨hko, hsk⟩ | ⟨_, hsk⟩
    · exact ⟨_, hsk, hsv, hvolt, fun _ => ⟨k, post, rfl, hko⟩⟩
    · refine ⟨_, hsk, hsv, hvolt, ?_⟩
      intro hh
      simp only at hh
      rw [hoff] at hh
      cases hh

theorem checked_calls_voltage (h : Header) (rc : Call → Nat → Int)
    (regulator : drv_npm6001_vreg) (l : vreg_locals)
    (hsv : l.set_voltage = true) (hv0 : l.voltage ≠ 0)
    (hlo : (vreg_limits h regulator).1 ≤ l.voltage)
    (hhi : l.voltage ≤ (vreg_limits h regulator).2)
    (hoff : l.turn_off = true → regulator = DRV_NPM6001_DCDC3 ∨
      regulator = DRV_NPM6001_LDO0 ∨ regulator = DRV_NPM6001_LDO1)
    (hm : ∀ m k, rc (drv_npm6001_vreg_dcdc_mode_set regulator m) k = 0) :
    ∃ M : List Call, M.length ≤ 1 ∧ (∀ c ∈ M, c.is_mode_set = true) ∧
      (regulator = DRV_NPM6001_LDO0 ∨ regulator = DRV_NPM6001_LDO1 → M = []) ∧
      checked_calls h rc regulator (vreg_resolve l) =
        M ++
        (if regulator = DRV_NPM6001_DCDC3 then
          [drv_npm6001_vreg_disable DRV_NPM6001_DCDC3,
           drv_npm6001_vreg_disable DRV_NPM6001_DCDC3]
         else []) ++
        (if regulator = DRV_NPM6001_LDO1 then []
         else [drv_npm6001_vreg_voltage_set regulator l.voltage]) ++
        (if regulator ≠ DRV_NPM6001_LDO1 ∧
            rc (drv_npm6001_vreg_voltage_set regulator l.voltage)
              (M.length + (if regulator = DRV_NPM6001_DCDC3 then 2 else 0)) = -EINVAL then []
         else [drv_npm6001_vreg_enable regulator]) := by
  obtain ⟨mode, voltage, set_mode, set_voltage, turn_on, turn_off⟩ := l
  simp only at hsv hv0 hlo hhi hoff
  subst hsv
  have hrange : ¬ (voltage < (vreg_limits h regulator).1 ∨
      voltage > (vreg_limits h regulator).2) := by omega
  have hrej : ¬ (turn_off = true ∧ (regulator = DRV_NPM6001_DCDC0 ∨
      regulator = DRV_NPM6001_DCDC1 ∨ regulator = DRV_NPM6001_DCDC2)) := by
    rintro ⟨ho, hr⟩
    rcases hoff ho with rfl | rfl | rfl <;> simp at hr
  have hres : vreg_resolve ⟨mode, voltage, set_mode, true, turn_on, turn_off⟩ =
      ⟨mode, voltage, set_mode, true, true, turn_off⟩ := by
    simp [vreg_resolve, hv0]
  rw [hres]
  unfold checked_calls
  simp only [hrej, hrange, and_false, if_false, Bool.true_and]
  unfold mode_calls
  simp only [disable_calls_groups, final_calls, on_off_calls, hm]
  by_cases hms : set_mode = true ∧ ¬ (regulator = DRV_NPM6001_LDO0 ∨
      regulator = DRV_NPM6001_LDO1)
  · refine ⟨[drv_npm6001_vreg_dcdc_mode_set regulator mode], by simp, by simp [Call.is_mode_set],
      fun hl => absurd hl hms.2, ?_⟩
    obtain ⟨hsm, hnl⟩ := hms
    subst hsm
    cases regulator <;> simp at hnl <;> simp [Nat.add_comm]
  · refine ⟨[], by simp, by simp, fun _ => rfl, ?_⟩
    cases set_mode <;> cases regulator <;> simp at hms <;> simp

theorem on_not_off (k : String) (hon : k = "ON" ∨ k = "on") : ¬ is_off k := by
  rcases hon with rfl | rfl <;> decide

theorem cmd_vreg_voltage_calls (h : Header) (rc : Call → Nat → Int) (argv0 : String)
    (regulator : drv_npm6001_vreg) (pre mid rest : List String) (t : String)
    (hr : vreg_of_name argv0 = some regulator)
    (hpre : ∀ a ∈ pre, is_accepted a) (ht : ¬ is_mode t)
    (hv : to_uint16 (strtol t 0) ≠ 0)
    (hlo : (vreg_limits h regulator).1 ≤ to_uint16 (strtol t 0))
    (hhi : to_uint16 (strtol t 0) ≤ (vreg_limits h regulator).2)
    (hmid : ∀ a ∈ mid, is_mode a)
    (hrest : rest = [] ∨ ∃ k post, rest = k :: post ∧
      ((k = "ON" ∨ k = "on") ∨ (is_off k ∧ (regulator = DRV_NPM6001_DCDC3 ∨
        regulator = DRV_NPM6001_LDO0 ∨ regulator = DRV_NPM6001_LDO1))))
    (hm : ∀ m k, rc (drv_npm6001_vreg_dcdc_mode_set regulator m) k = 0) :
    ∃ M : List Call, M.length ≤ 1 ∧ (∀ c ∈ M, c.is_mode_set = true) ∧
      (regulator = DRV_NPM6001_LDO0 ∨ regulator = DRV_NPM6001_LDO1 → M = []) ∧
      (cmd_vreg h rc argv0 (pre ++ t :: (mid ++ rest))).calls =
        M ++
        (if regulator = DRV_NPM6001_DCDC3 then
          [drv_npm6001_vreg_disable DRV_NPM6001_DCDC3,
           drv_npm6001_vreg_disable DRV_NPM6001_DCDC3]
         else []) ++
        (if regulator = DRV_NPM6001_LDO1 then []
         else [drv_npm6001_vreg_voltage_set regulator (to_uint16 (strtol t 0))]) ++
        (if regulator ≠ DRV_NPM6001_LDO1 ∧
            rc (drv_npm6001_vreg_voltage_set regulator (to_uint16 (strtol t 0)))
              (M.length + (if regulator = DRV_NPM6001_DCDC3 then 2 else 0)) = -EINVAL then []
         else [drv_npm6001_vreg_enable regulator]) := by
  have hrest' : rest = [] ∨ ∃ k post, rest = k :: post ∧ is_on_off k := by
    rcases hrest with rfl | ⟨k, post, rfl, hk⟩
    · exact Or.inl rfl
    · refine Or.inr ⟨k, post, rfl, ?_⟩
      rcases hk with (rfl | rfl) | ⟨(rfl | rfl | rfl), _⟩ <;> decide
  obtain ⟨l, hs, hsv, hvolt, hoff⟩ := vreg_scan_voltage_last pre mid rest t hpre ht hv hmid hrest'
  have hoff' : l.turn_off = true → regulator = DRV_NPM6001_DCDC3 ∨
      regulator = DRV_NPM6001_LDO0 ∨ regulator = DRV_NPM6001_LDO1 := by
    intro ho
    obtain ⟨k, post, hk, hko⟩ := hoff ho
    rcases hrest with rfl | ⟨k', post', hk', hcase⟩
    · cases hk
    · rw [hk] at hk'
      obtain ⟨rfl, _⟩ := List.cons.inj hk'
      rcases hcase with hon | ⟨_, hreg⟩
      · exact absurd hko (on_not_off k hon)
      · exact hreg
  obtain ⟨a, tail, hcons⟩ := append_cons_eq_cons pre t (mid ++ rest)
  rw [hcons] at hs ⊢
  rw [cmd_vreg_calls h rc argv0 regulator a tail l hr hs]
  have := checked_calls_voltage h rc regulator l hsv (by rw [hvolt]; exact hv)
    (by rw [hvolt]; exact hlo) (by rw [hvolt]; exact hhi) hoff' hm
  rw [hvolt] at this
  exact this

/-! ## A voltage turns the regulator on -/

/-- C13: for every regulator and every token list whose last voltage token is accepted
(before it tokens the loop goes past, after it mode keywords and then nothing or an
on/off/0 keyword; its value is not zero and inside the range of the regulator; the command
is not refused, so no off keyword on DCDC0, DCDC1, DCDC2), when the mode-set does not fail
and the voltage-set does not return `-EINVAL`, the last driver call is
`drv_npm6001_vreg_enable` of the regulator and no disable call follows a voltage-set; this
includes an `off` after the voltage on DCDC3, LDO0 and LDO1. -/
theorem cmd_vreg_voltage_implies_on (h : Header) (rc : Call → Nat → Int) (argv0 : String)
    (regulator : drv_npm6001_vreg) (pre mid rest : List String) (t : String)
    (hr : vreg_of_name argv0 = some regulator)
    (hpre : ∀ a ∈ pre, is_accepted a) (ht : ¬ is_mode t)
    (hv : to_uint16 (strtol t 0) ≠ 0)
    (hlo : (vreg_limits h regulator).1 ≤ to_uint16 (strtol t 0))
    (hhi : to_uint16 (strtol t 0) ≤ (vreg_limits h regulator).2)
    (hmid : ∀ a ∈ mid, is_mode a)
    (hrest : rest = [] ∨ ∃ k post, rest = k :: post ∧
      ((k = "ON" ∨ k = "on") ∨ (is_off k ∧ (regulator = DRV_NPM6001_DCDC3 ∨
        regulator = DRV_NPM6001_LDO0 ∨ regulator = DRV_NPM6001_LDO1))))
    (hm : ∀ m k, rc (drv_npm6001_vreg_dcdc_mode_set regulator m) k = 0)
    (he : ∀ v k, rc (drv_npm6001_vreg_voltage_set regulator v) k ≠ -EINVAL) :
    (cmd_vreg h rc argv0 (pre ++ t :: (mid ++ rest))).calls.getLast? =
      some (drv_npm6001_vreg_enable regulator) ∧
    ∀ p y q, (cmd_vreg h rc argv0 (pre ++ t :: (mid ++ rest))).calls = p ++ y :: q →
      y.is_voltage_set = true → ∀ c ∈ q, c.is_disable = false := by
  obtain ⟨M, _, hM, _, hc⟩ :=
    cmd_vreg_voltage_calls h rc argv0 regulator pre mid rest t hr hpre ht hv hlo hhi hmid
      hrest hm
  simp only [he, and_false, if_false] at hc
  constructor
  · rw [hc]
    exact List.getLast?_concat _
  · intro p y q hdec hy
    rw [hc, List.append_assoc] at hdec
    refine nothing_after Call.is_voltage_set Call.is_disable _ _ ?_ ?_ p q y hy hdec
    · intro c hcm
      rcases List.mem_append.mp hcm with hcm | hcm
      · exact (mode_set_kind c (hM c hcm)).1
      · split_ifs at hcm <;> simp at hcm
        rw [hcm]
        rfl
    · intro c hcm
      rcases List.mem_append.mp hcm with hcm | hcm
      · split_ifs at hcm <;> simp at hcm
        rw [hcm]
        rfl
      · simp at hcm
        rw [hcm]
        rfl

/-- C13, witness: `DCDC3 pwm 1000 off` with a driver in which every disable fails: the
calls end with the enable of DCDC3. -/
theorem cmd_vreg_voltage_implies_on_witness :
    (cmd_vreg header0 rc_disable_fails "DCDC3" ["pwm", "1000", "off"]).calls.getLast? =
      some (drv_npm6001_vreg_enable DRV_NPM6001_DCDC3) ∧
    (cmd_vreg header0 rc_disable_fails "DCDC3" ["pwm", "1000", "off"]).calls =
      [drv_npm6001_vreg_dcdc_mode_set DRV_NPM6001_DCDC3 DRV_NPM6001_MODE_PWM,
       drv_npm6001_vreg_disable DRV_NPM6001_DCDC3, drv_npm6001_vreg_disable DRV_NPM6001_DCDC3,
       drv_npm6001_vreg_voltage_set DRV_NPM6001_DCDC3 1000,
       drv_npm6001_vreg_enable DRV_NPM6001_DCDC3] :=
  ⟨(cmd_vreg_voltage_implies_on header0 rc_disable_fails "DCDC3" DRV_NPM6001_DCDC3
      ["pwm"] [] ["off"] "1000" (by decide) (by decide) (by decide) (by decide) (by decide)
      (by decide) (by decide)
      (Or.inr ⟨"off", [], rfl, Or.inr ⟨by decide, Or.inl rfl⟩⟩)
      (fun _ _ => rfl)
      (fun _ _ => by simp [rc_disable_fails, Call.is_disable, EINVAL])).1,
   by decide⟩

/-! ## Setting the voltage of DCDC3: disable, voltage-set, enable -/

/-- C1, amended: for every argument vector of DCDC3 in which the argument loop reads a
voltage and the last voltage token `t` it reads has a value in 500..3300 (before `t` any
tokens that the loop goes past, after `t` any mode keywords, and then nothing or an
on/off/0 keyword followed by anything), and for every driver in which the mode-set succeeds
and the voltage-set does not return `-EINVAL`, the calls contain disable, voltage-set of
that value and enable of DCDC3 in that order, whatever the disable calls return. -/
theorem cmd_vreg_dcdc3_disable_set_enable (h : Header) (rc : Call → Nat → Int)
    (pre mid rest : List String) (t : String)
    (hpre : ∀ a ∈ pre, is_accepted a) (hmid : ∀ a ∈ mid, is_mode a)
    (hrest : rest = [] ∨ ∃ k post, rest = k :: post ∧ is_on_off k)
    (hlo : 500 ≤ strtol t 0) (hhi : strtol t 0 ≤ 3300)
    (hm : ∀ m k, rc (drv_npm6001_vreg_dcdc_mode_set DRV_NPM6001_DCDC3 m) k = 0)
    (he : ∀ v k, rc (drv_npm6001_vreg_voltage_set DRV_NPM6001_DCDC3 v) k ≠ -EINVAL) :
    List.Sublist
      [drv_npm6001_vreg_disable DRV_NPM6001_DCDC3,
       drv_npm6001_vreg_voltage_set DRV_NPM6001_DCDC3 (strtol t 0).toNat,
       drv_npm6001_vreg_enable DRV_NPM6001_DCDC3]
      (cmd_vreg h rc "DCDC3" (pre ++ t :: (mid ++ rest))).calls := by
  obtain ⟨h16, hacc, hnm⟩ := in_range_accepted t 500 (by norm_num) hlo (by omega)
  have hv0 : to_uint16 (strtol t 0) ≠ 0 := by
    rw [h16]
    omega
  have hrest' : rest = [] ∨ ∃ k post, rest = k :: post ∧
      ((k = "ON" ∨ k = "on") ∨ (is_off k ∧ (DRV_NPM6001_DCDC3 = DRV_NPM6001_DCDC3 ∨
        DRV_NPM6001_DCDC3 = DRV_NPM6001_LDO0 ∨ DRV_NPM6001_DCDC3 = DRV_NPM6001_LDO1))) := by
    rcases hrest with rfl | ⟨k, post, rfl, hk⟩
    · exact Or.inl rfl
    · refine Or.inr ⟨k, post, rfl, ?_⟩
      rcases hk with hk | hk | hk | hk | hk
      · exact Or.inl (Or.inl hk)
      · exact Or.inl (Or.inr hk)
      · exact Or.inr ⟨Or.inl hk, Or.inl rfl⟩
      · exact Or.inr ⟨Or.inr (Or.inl hk), Or.inl rfl⟩
      · exact Or.inr ⟨Or.inr (Or.inr hk), Or.inl rfl⟩
  obtain ⟨M, _, _, _, hc⟩ :=
    cmd_vreg_voltage_calls h rc "DCDC3" DRV_NPM6001_DCDC3 pre mid rest t (by decide) hpre hnm
      hv0 (show 500 % 65536 ≤ _ by rw [h16]; omega) (show _ ≤ 3300 % 65536 by rw [h16]; omega)
      hmid hrest' hm
  simp only [if_true, reduceCtorEq, if_false, ne_eq, not_false_eq_true, true_and, he,
    h16] at hc
  rw [hc]
  simp only [List.append_assoc, List.cons_append, List.nil_append]
  exact List.Sublist.trans (List.Sublist.cons _ (List.Sublist.refl _))
    (List.sublist_append_right M _)

/-- C1, witness: `DCDC3 pwm 1000 off` and `DCDC3 1000 on`, each with a driver in which
every disable fails. -/
theorem cmd_vreg_dcdc3_disable_set_enable_witness :
    (∀ a ∈ ["pwm"], is_accepted a) ∧ is_on_off "off" ∧
    500 ≤ strtol "1000" 0 ∧ strtol "1000" 0 ≤ 3300 ∧
    (∀ m k, rc_disable_fails (drv_npm6001_vreg_dcdc_mode_set DRV_NPM6001_DCDC3 m) k = 0) ∧
    (∀ v k, rc_disable_fails (drv_npm6001_vreg_voltage_set DRV_NPM6001_DCDC3 v) k ≠ -EINVAL) ∧
    List.Sublist
      [drv_npm6001_vreg_disable DRV_NPM6001_DCDC3,
       drv_npm6001_vreg_voltage_set DRV_NPM6001_DCDC3 1000,
       drv_npm6001_vreg_enable DRV_NPM6001_DCDC3]
      (cmd_vreg header0 rc_disable_fails "DCDC3" ["pwm", "1000", "off"]).calls ∧
    List.Sublist
      [drv_npm6001_vreg_disable DRV_NPM6001_DCDC3,
       drv_npm6001_vreg_voltage_set DRV_NPM6001_DCDC3 1000,
       drv_npm6001_vreg_enable DRV_NPM6001_DCDC3]
      (cmd_vreg header0 rc_disable_fails "DCDC3" ["1000", "on"]).calls :=
  ⟨by decide, by decide, by decide, by decide, fun _ _ => rfl,
   fun _ _ => by simp [rc_disable_fails, Call.is_disable, EINVAL],
   cmd_vreg_dcdc3_disable_set_enable header0 rc_disable_fails ["pwm"] [] ["off"] "1000"
     (by decide) (by decide) (Or.inr ⟨"off", [], rfl, by decide⟩) (by decide) (by decide)
     (fun _ _ => rfl) (fun _ _ => by simp [rc_disable_fails, Call.is_disable, EINVAL]),
   cmd_vreg_dcdc3_disable_set_enable header0 rc_disable_fails [] [] ["on"] "1000"
     (by decide) (by decide) (Or.inr ⟨"on", [], rfl, by decide⟩) (by decide) (by decide)
     (fun _ _ => rfl) (fun _ _ => by simp [rc_disable_fails, Call.is_disable, EINVAL])⟩

/-! ## The order of the calls -/

theorem double_disable_mem (D : List Call)
    (hD : D = [] ∨ D = [drv_npm6001_vreg_disable DRV_NPM6001_DCDC3,
      drv_npm6001_vreg_disable DRV_NPM6001_DCDC3]) :
    ∀ c ∈ D, c = drv_npm6001_vreg_disable DRV_NPM6001_DCDC3 := by
  intro c hc
  rcases hD with rfl | rfl
  · cases hc
  · simp only [List.mem_cons, List.mem_singleton, List.not_mem_nil, or_false, or_self] at hc
    exact hc

theorem disable_calls_shape (rc : Call → Nat → Int) (regulator : drv_npm6001_vreg)
    (l : vreg_locals) (k : Nat) :
    ∃ D V F : List Call, disable_calls rc regulator l k = D ++ V ++ F ∧
      (D = [] ∨ D = [drv_npm6001_vreg_disable DRV_NPM6001_DCDC3,
        drv_npm6001_vreg_disable DRV_NPM6001_DCDC3]) ∧
      (D ≠ [] → regulator = DRV_NPM6001_DCDC3 ∧ V ≠ []) ∧
      V.length ≤ 1 ∧ (∀ c ∈ V, c.is_voltage_set = true) ∧
      F.length ≤ 1 ∧
      (∀ c ∈ F, c = drv_npm6001_vreg_enable regulator ∨
        c = drv_npm6001_vreg_disable regulator) := by
  refine ⟨_, _, _, disable_calls_groups rc regulator l k, ?_, ?_, ?_, ?_,
    (final_calls_final rc regulator l k).1, (final_calls_final rc regulator l k).2⟩
  · split_ifs
    · exact Or.inr rfl
    · exact Or.inl rfl
  · split_ifs with h1 h2 <;> simp
    · exact h1.2
    · exact absurd h1.1 h2
  · split_ifs <;> simp
  · split_ifs <;> simp [Call.is_voltage_set]

theorem mode_calls_shape (rc : Call → Nat → Int) (regulator : drv_npm6001_vreg)
    (l : vreg_locals) (k : Nat) :
    ∃ M D V F : List Call, mode_calls rc regulator l k = M ++ D ++ V ++ F ∧
      M.length ≤ 1 ∧ (∀ c ∈ M, c.is_mode_set = true) ∧
      (D = [] ∨ D = [drv_npm6001_vreg_disable DRV_NPM6001_DCDC3,
        drv_npm6001_vreg_disable DRV_NPM6001_DCDC3]) ∧
      (D ≠ [] → regulator = DRV_NPM6001_DCDC3 ∧ V ≠ []) ∧
      V.length ≤ 1 ∧ (∀ c ∈ V, c.is_voltage_set = true) ∧
      F.length ≤ 1 ∧
      (∀ c ∈ F, c = drv_npm6001_vreg_enable regulator ∨
        c = drv_npm6001_vreg_disable regulator) := by
  unfold mode_calls
  split_ifs with hm hf
  · exact ⟨[drv_npm6001_vreg_dcdc_mode_set regulator l.mode], [], [], [], by simp, by simp,
      by simp [Call.is_mode_set], by simp, by simp, by simp, by simp, by simp, by simp⟩
  · obtain ⟨D, V, F, hc, h1, h2, h3, h4, h5, h6⟩ := disable_calls_shape rc regulator l (k + 1)
    exact ⟨[drv_npm6001_vreg_dcdc_mode_set regulator l.mode], D, V, F, by rw [hc]; simp,
      by simp, by simp [Call.is_mode_set], h1, h2, h3, h4, h5, h6⟩
  · obtain ⟨D, V, F, hc, h1, h2, h3, h4, h5, h6⟩ := disable_calls_shape rc regulator l k
    exact ⟨[], D, V, F, by rw [hc]; simp, by simp, by simp, h1, h2, h3, h4, h5, h6⟩

theorem checked_calls_shape (h : Header) (rc : Call → Nat → Int)
    (regulator : drv_npm6001_vreg) (l : vreg_locals) :
    ∃ M D V F : List Call, checked_calls h rc regulator l = M ++ D ++ V ++ F ∧
      M.length ≤ 1 ∧ (∀ c ∈ M, c.is_mode_set = true) ∧
      (D = [] ∨ D = [drv_npm6001_vreg_disable DRV_NPM6001_DCDC3,
        drv_npm6001_vreg_disable DRV_NPM6001_DCDC3]) ∧
      (D ≠ [] → regulator = DRV_NPM6001_DCDC3 ∧ V ≠ []) ∧
      V.length ≤ 1 ∧ (∀ c ∈ V, c.is_voltage_set = true) ∧
      F.length ≤ 1 ∧
      (∀ c ∈ F, c = drv_npm6001_vreg_enable regulator ∨
        c = drv_npm6001_vreg_disable regulator) := by
  unfold checked_calls
  split_ifs
  · exact ⟨[], [], [], [], by simp⟩
  · exact ⟨[], [], [], [], by simp⟩
  · exact mode_calls_shape rc regulator _ 0

theorem vreg_of_name_dcdc3 (a : String)
    (hr : vreg_of_name a = some DRV_NPM6001_DCDC3) : a = "DCDC3" := by
  unfold vreg_of_name at hr
  split_ifs at hr with h0 h1 h2 h3 h4 h5
  all_goals first | exact h3 | simp at hr

theorem cmd_vreg_shape (h : Header) (rc : Call → Nat → Int) (argv0 : String)
    (args : List String) :
    ∃ M D V F : List Call, (cmd_vreg h rc argv0 args).calls = M ++ D ++ V ++ F ∧
      M.length ≤ 1 ∧ (∀ c ∈ M, c.is_mode_set = true) ∧
      (D = [] ∨ D = [drv_npm6001_vreg_disable DRV_NPM6001_DCDC3,
        drv_npm6001_vreg_disable DRV_NPM6001_DCDC3]) ∧
      (D ≠ [] → argv0 = "DCDC3" ∧ V ≠ []) ∧
      V.length ≤ 1 ∧ (∀ c ∈ V, c.is_voltage_set = true) ∧
      F.length ≤ 1 ∧ (∀ c ∈ F, c.is_enable = true ∨ c.is_disable = true) := by
  rcases cmd_vreg_calls_cases h rc argv0 args with hc | ⟨regulator, l, hr, _, hc⟩
  · exact ⟨[], [], [], [], by rw [hc]; simp⟩
  · obtain ⟨M, D, V, F, hs, h1, h2, h3, h4, h5, h6, h7, h8⟩ :=
      checked_calls_shape h rc regulator (vreg_resolve l)
    refine ⟨M, D, V, F, hc.trans hs, h1, h2, h3, ?_, h5, h6, h7, ?_⟩
    · intro hD
      obtain ⟨hreg, hV⟩ := h4 hD
      rw [hreg] at hr
      exact ⟨vreg_of_name_dcdc3 argv0 hr, hV⟩
    · intro c hcF
      rcases h8 c hcF with rfl | rfl
      · exact Or.inl rfl
      · exact Or.inr rfl

/-- C16: for every argument vector and every driver, the calls of `cmd_vreg` are four
groups in this order: at most one `drv_npm6001_vreg_dcdc_mode_set`; then the disable of
DCDC3 before a voltage change (two calls of `drv_npm6001_vreg_disable`), present only on
DCDC3 together with a voltage-set; then at most one `drv_npm6001_vreg_voltage_set`; then at
most one last call, an enable or a disable.  Hence no mode-set follows a voltage-set, and
nothing at all follows an enable. -/
theorem cmd_vreg_call_order (h : Header) (rc : Call → Nat → Int) (argv0 : String)
    (args : List String) :
    (∃ M D V F : List Call, (cmd_vreg h rc argv0 args).calls = M ++ D ++ V ++ F ∧
      M.length ≤ 1 ∧ (∀ c ∈ M, c.is_mode_set = true) ∧
      (D = [] ∨ D = [drv_npm6001_vreg_disable DRV_NPM6001_DCDC3,
        drv_npm6001_vreg_disable DRV_NPM6001_DCDC3]) ∧
      (D ≠ [] → argv0 = "DCDC3" ∧ V ≠ []) ∧
      V.length ≤ 1 ∧ (∀ c ∈ V, c.is_voltage_set = true) ∧
      F.length ≤ 1 ∧ (∀ c ∈ F, c.is_enable = true ∨ c.is_disable = true)) ∧
    (∀ p y q, (cmd_vreg h rc argv0 args).calls = p ++ y :: q → y.is_voltage_set = true →
      ∀ c ∈ q, c.is_mode_set = false) ∧
    (∀ p y q, (cmd_vreg h rc argv0 args).calls = p ++ y :: q → y.is_enable = true →
      q = []) := by
  obtain ⟨M, D, V, F, hs, h1, h2, h3, h4, h5, h6, h7, h8⟩ := cmd_vreg_shape h rc argv0 args
  refine ⟨⟨M, D, V, F, hs, h1, h2, h3, h4, h5, h6, h7, h8⟩, ?_, ?_⟩
  · intro p y q hdec hy
    rw [hs, List.append_assoc] at hdec
    refine nothing_after Call.is_voltage_set Call.is_mode_set _ _ ?_ ?_ p q y hy hdec
    · intro c hc
      rcases List.mem_append.mp hc with hc | hc
      · exact (mode_set_kind c (h2 c hc)).1
      · rw [double_disable_mem D h3 c hc]
        rfl
    · intro c hc
      rcases List.mem_append.mp hc with hc | hc
      · exact (voltage_set_kind c (h6 c hc)).1
      · rcases h8 c hc with hh | hh
        · exact (enable_kind c hh).1
        · exact (disable_kind c hh).1
  · intro p y q hdec hy
    rw [hs] at hdec
    refine nothing_after_last Call.is_enable _ F ?_ h7 p q y hy hdec
    intro c hc
    rcases List.mem_append.mp hc with hc | hc
    · rcases List.mem_append.mp hc with hc | hc
      · exact (mode_set_kind c (h2 c hc)).2.1
      · rw [double_disable_mem D h3 c hc]
        rfl
    · exact (voltage_set_kind c (h6 c hc)).2.1

/-- C16, witness: on `DCDC3 pwm 1000` with a driver that succeeds, what follows the
voltage-set is the enable, which is no mode-set, and nothing follows the enable. -/
theorem cmd_vreg_call_order_witness :
    (cmd_vreg header0 rc_ok "DCDC3" ["pwm", "1000"]).calls =
      [drv_npm6001_vreg_dcdc_mode_set DRV_NPM6001_DCDC3 DRV_NPM6001_MODE_PWM,
       drv_npm6001_vreg_disable DRV_NPM6001_DCDC3, drv_npm6001_vreg_disable DRV_NPM6001_DCDC3,
       drv_npm6001_vreg_voltage_set DRV_NPM6001_DCDC3 1000,
       drv_npm6001_vreg_enable DRV_NPM6001_DCDC3] ∧
    (∀ c ∈ [drv_npm6001_vreg_enable DRV_NPM6001_DCDC3], c.is_mode_set = false) :=
  ⟨by decide,
   (cmd_vreg_call_order header0 rc_ok "DCDC3" ["pwm", "1000"]).2.1
     [drv_npm6001_vreg_dcdc_mode_set DRV_NPM6001_DCDC3 DRV_NPM6001_MODE_PWM,
      drv_npm6001_vreg_disable DRV_NPM6001_DCDC3, drv_npm6001_vreg_disable DRV_NPM6001_DCDC3]
     (drv_npm6001_vreg_voltage_set DRV_NPM6001_DCDC3 1000)
     [drv_npm6001_vreg_enable DRV_NPM6001_DCDC3] (by decide) rfl⟩

/-! ## LDO1 -/

theorem checked_calls_ldo1 (h : Header) (rc : Call → Nat → Int)
    (regulator : drv_npm6001_vreg) (l : vreg_locals) (hreg : regulator = DRV_NPM6001_LDO1) :
    ∀ c ∈ checked_calls h rc regulator l,
      c = drv_npm6001_vreg_enable regulator ∨ c = drv_npm6001_vreg_disable regulator := by
  have key : ∀ l' : vreg_locals, l'.set_mode = false → l'.set_voltage = false →
      mode_calls rc regulator l' 0 = on_off_calls regulator l' := by
    intro l' h1 h2
    unfold mode_calls
    simp [disable_calls_groups, final_calls, h1, h2]
  unfold checked_calls
  split_ifs
  · intro c hc
    cases hc
  · intro c hc
    cases hc
  · rw [key _ (by simp [hreg]) (by simp [hreg])]
    exact (on_off_calls_final _ _).2

theorem checked_calls_ldo1_voltage (h : Header) (rc : Call → Nat → Int)
    (regulator : drv_npm6001_vreg) (l : vreg_locals) (hreg : regulator = DRV_NPM6001_LDO1)
    (hsv : l.set_voltage = true) (hv0 : l.voltage ≠ 0)
    (hlo : (vreg_limits h regulator).1 ≤ l.voltage)
    (hhi : l.voltage ≤ (vreg_limits h regulator).2) :
    checked_calls h rc regulator (vreg_resolve l) = [drv_npm6001_vreg_enable regulator] := by
  obtain ⟨mode, voltage, set_mode, set_voltage, turn_on, turn_off⟩ := l
  simp only at hsv hv0 hlo hhi
  subst hsv
  have hrange : ¬ (voltage < (vreg_limits h regulator).1 ∨
      voltage > (vreg_limits h regulator).2) := by omega
  have hres : vreg_resolve ⟨mode, voltage, set_mode, true, turn_on, turn_off⟩ =
      ⟨mode, voltage, set_mode, true, true, turn_off⟩ := by
    simp [vreg_resolve, hv0]
  rw [hres]
  unfold checked_calls
  simp only [hrange, and_false, if_false]
  unfold mode_calls
  simp [disable_calls_groups, final_calls, on_off_calls, hreg]

/-- C14: on LDO1, for every argument vector and every driver, the calls contain no
`drv_npm6001_vreg_voltage_set` and no `drv_npm6001_vreg_dcdc_mode_set`; when the last
voltage token is not zero and inside the range of LDO1 (before it tokens the loop goes
past, after it mode keywords and then nothing or an on/off/0 keyword) the calls are exactly
the enable of LDO1; and with only mode keywords before it, `on`/`ON` gives exactly the
enable and `off`/`OFF`/`0` exactly the disable of LDO1. -/
theorem cmd_vreg_ldo1 (h : Header) (rc : Call → Nat → Int) :
    (∀ args, ∀ c ∈ (cmd_vreg h rc "LDO1" args).calls,
      c.is_voltage_set = false ∧ c.is_mode_set = false) ∧
    (∀ pre mid rest t, (∀ a ∈ pre, is_accepted a) → ¬ is_mode t →
      to_uint16 (strtol t 0) ≠ 0 →
      h.DRV_NPM6001_LDO1_MINV % 65536 ≤ to_uint16 (strtol t 0) →
      to_uint16 (strtol t 0) ≤ h.DRV_NPM6001_LDO1_MAXV % 65536 →
      (∀ a ∈ mid, is_mode a) →
      (rest = [] ∨ ∃ k post, rest = k :: post ∧ is_on_off k) →
      (cmd_vreg h rc "LDO1" (pre ++ t :: (mid ++ rest))).calls =
        [drv_npm6001_vreg_enable DRV_NPM6001_LDO1]) ∧
    (∀ pre k post, (∀ a ∈ pre, is_mode a) →
      ((k = "ON" ∨ k = "on") →
        (cmd_vreg h rc "LDO1" (pre ++ k :: post)).calls =
          [drv_npm6001_vreg_enable DRV_NPM6001_LDO1]) ∧
      (is_off k →
        (cmd_vreg h rc "LDO1" (pre ++ k :: post)).calls =
          [drv_npm6001_vreg_disable DRV_NPM6001_LDO1])) := by
  have hr : vreg_of_name "LDO1" = some DRV_NPM6001_LDO1 := by decide
  refine ⟨?_, ?_, ?_⟩
  · intro args c hc
    rcases cmd_vreg_calls_cases h rc "LDO1" args with he | ⟨regulator, l, hr', _, he⟩
    · rw [he] at hc
      cases hc
    · rw [hr] at hr'
      obtain rfl := Option.some.inj hr'
      rw [he] at hc
      rcases checked_calls_ldo1 h rc _ _ rfl c hc with rfl | rfl <;> exact ⟨rfl, rfl⟩
  · intro pre mid rest t hpre ht hv hlo hhi hmid hrest
    obtain ⟨l, hs, hsv, hvolt, _⟩ := vreg_scan_voltage_last pre mid rest t hpre ht hv hmid hrest
    obtain ⟨a, tail, hcons⟩ := append_cons_eq_cons pre t (mid ++ rest)
    rw [hcons] at hs ⊢
    rw [cmd_vreg_calls h rc "LDO1" DRV_NPM6001_LDO1 a tail l hr hs]
    exact checked_calls_ldo1_voltage h rc _ l rfl hsv (by rw [hvolt]; exact hv)
      (by rw [hvolt]; exact hlo) (by rw [hvolt]; exact hhi)
  · intro pre k post hpre
    exact cmd_vreg_ldo_on_off h rc "LDO1" DRV_NPM6001_LDO1 hr (Or.inr rfl) pre post k hpre

/-- C14, witness: with LDO1 at 1800 mV, `LDO1 1800 off` calls the enable only, and
`LDO1 off` the disable only. -/
theorem cmd_vreg_ldo1_witness :
    (cmd_vreg header0 rc_ok "LDO1" ["1800", "off"]).calls =
      [drv_npm6001_vreg_enable DRV_NPM6001_LDO1] ∧
    (cmd_vreg header0 rc_ok "LDO1" ["off"]).calls =
      [drv_npm6001_vreg_disable DRV_NPM6001_LDO1] :=
  ⟨(cmd_vreg_ldo1 header0 rc_ok).2.1 [] [] ["off"] "1800" (by decide) (by decide)
      (by decide) (by decide) (by decide) (by decide)
      (Or.inr ⟨"off", [], rfl, by decide⟩),
   ((cmd_vreg_ldo1 header0 rc_ok).2.2 [] "off" [] (by decide)).2 (by decide)⟩

/-! ## The first on/off/0 keyword ends the loop -/

theorem vreg_scan_short_circuit (p s : List String) (k : String) (l : vreg_locals)
    (hk : is_on_off k) : vreg_scan (p ++ k :: s) l = vreg_scan (p ++ [k]) l := by
  induction p generalizing l with
  | nil =>
    rcases hk with rfl | rfl | rfl | rfl | rfl <;> simp [vreg_scan]
  | cons a p ih =>
    simp only [List.cons_append, vreg_scan]
    split_ifs <;> first | rfl | exact ih _

/-- C15: for every name, every token lists `p` and `s`, every keyword `k` among `on`, `ON`,
`off`, `OFF`, `0` and every driver, the command on `p ++ [k] ++ s` gives the same return
value, the same messages and the same calls as the command on `p ++ [k]`. -/
theorem cmd_vreg_short_circuit (h : Header) (rc : Call → Nat → Int) (argv0 : String)
    (p s : List String) (k : String) (hk : is_on_off k) :
    cmd_vreg h rc argv0 (p ++ k :: s) = cmd_vreg h rc argv0 (p ++ [k]) := by
  unfold cmd_vreg
  rw [vreg_scan_short_circuit p s k _ hk]
  simp only [List.length_append, List.length_cons, List.length_nil]
  rw [if_neg (by omega), if_neg (by omega)]

/-- C15, witness: `DCDC3 pwm on xyz 0` is `DCDC3 pwm on`. -/
theorem cmd_vreg_short_circuit_witness :
    is_on_off "on" ∧
    cmd_vreg header0 rc_ok "DCDC3" ["pwm", "on", "xyz", "0"] =
      cmd_vreg header0 rc_ok "DCDC3" ["pwm", "on"] :=
  ⟨by decide, cmd_vreg_short_circuit header0 rc_ok "DCDC3" ["pwm"] ["xyz", "0"] "on"
    (by decide)⟩

/-! ## Driver failures -/

theorem rc_ok_not_einval (r : drv_npm6001_vreg) (v k : Nat) :
    rc_ok (drv_npm6001_vreg_voltage_set r v) k ≠ -EINVAL := by
  simp [rc_ok, EINVAL]

theorem final_calls_success (rc : Call → Nat → Int) (regulator : drv_npm6001_vreg)
    (l : vreg_locals) (k : Nat)
    (he : ∀ r v k, rc (drv_npm6001_vreg_voltage_set r v) k ≠ -EINVAL) :
    final_calls rc regulator l k =
      if l.set_voltage = true then [drv_npm6001_vreg_enable regulator]
      else on_off_calls regulator l := by
  unfold final_calls
  rw [if_neg (he _ _ _)]

theorem checked_calls_success (h : Header) (rc : Call → Nat → Int)
    (regulator : drv_npm6001_vreg) (l : vreg_locals)
    (hm : ∀ r m k, rc (drv_npm6001_vreg_dcdc_mode_set r m) k = 0)
    (he : ∀ r v k, rc (drv_npm6001_vreg_voltage_set r v) k ≠ -EINVAL) :
    checked_calls h rc regulator l = checked_calls h rc_ok regulator l := by
  have h0 : ∀ c n, rc_ok c n = 0 := fun _ _ => rfl
  unfold checked_calls mode_calls
  simp only [disable_calls_groups, hm, h0, ne_eq, not_true_eq_false, if_false,
    final_calls_success rc regulator _ _ he,
    final_calls_success rc_ok regulator _ _ rc_ok_not_einval]

theorem cmd_vreg_success (h : Header) (rc : Call → Nat → Int) (argv0 : String)
    (args : List String)
    (hm : ∀ r m k, rc (drv_npm6001_vreg_dcdc_mode_set r m) k = 0)
    (he : ∀ r v k, rc (drv_npm6001_vreg_voltage_set r v) k ≠ -EINVAL) :
    (cmd_vreg h rc argv0 args).calls = (cmd_vreg h rc_ok argv0 args).calls := by
  cases args with
  | nil => simp [cmd_vreg]
  | cons a tail =>
    cases hr : vreg_of_name argv0 with
    | none =>
      unfold cmd_vreg
      simp only [hr]
    | some regulator =>
      cases hs : vreg_scan (a :: tail) vreg_locals.init with
      | error t =>
        rw [cmd_vreg_rejected h rc argv0 regulator a t tail hr hs,
          cmd_vreg_rejected h rc_ok argv0 regulator a t tail hr hs]
      | ok l =>
        rw [cmd_vreg_calls h rc argv0 regulator a tail l hr hs,
          cmd_vreg_calls h rc_ok argv0 regulator a tail l hr hs]
        exact checked_calls_success h rc regulator _ hm he

theorem vreg_set_mode_fails (rc : Call → Nat → Int) (argv0 : String)
    (regulator : drv_npm6001_vreg) (l : vreg_locals) (s : Effects)
    (hinv : l.set_voltage = true → l.turn_on = true) (hs : s.calls = [])
    (c : Call) (rest : List Call)
    (hc : (vreg_set_mode rc argv0 regulator l s).calls = c :: rest)
    (hms : c.is_mode_set = true) (hf : rc c 0 ≠ 0) :
    l.set_mode = true ∧
    vreg_set_mode rc argv0 regulator l s =
      ⟨0, s.out ++ [shell_warn "Failed to set mode" []], [c]⟩ := by
  rw [vreg_set_mode_calls rc argv0 regulator l s hinv, hs, List.nil_append,
    List.length_nil] at hc
  unfold mode_calls at hc
  by_cases hm : l.set_mode = true
  · rw [if_pos hm] at hc
    obtain ⟨hc1, _⟩ := List.cons.inj hc
    refine ⟨hm, ?_⟩
    rw [← hc1] at hf ⊢
    unfold vreg_set_mode
    simp only [hm, if_true, Effects.call, Effects.say, Effects.done, hs, List.length_nil,
      List.nil_append]
    rw [if_pos hf]
  · rw [if_neg hm] at hc
    have hmem : c ∈ disable_calls rc regulator l 0 := by
      rw [hc]
      exact List.mem_cons_self c rest
    have := disable_calls_no_mode_set rc regulator l 0 c hmem
    rw [hms] at this
    cases this

theorem vreg_check_voltage_fails (h : Header) (rc : Call → Nat → Int) (argv0 : String)
    (regulator : drv_npm6001_vreg) (l : vreg_locals) (s : Effects)
    (hinv : l.set_voltage = true → l.turn_on = true) (hs : s.calls = [])
    (c : Call) (rest : List Call)
    (hc : (vreg_check_voltage h rc argv0 regulator l s).calls = c :: rest)
    (hms : c.is_mode_set = true) (hf : rc c 0 ≠ 0) :
    l.set_mode = true ∧
    vreg_check_voltage h rc argv0 regulator l s =
      ⟨0, s.out ++ [shell_warn "Failed to set mode" []], [c]⟩ := by
  unfold vreg_check_voltage at hc ⊢
  split_ifs at hc ⊢
  · simp only [Effects.say, Effects.done, hs] at hc
    cases hc
  · exact vreg_set_mode_fails rc argv0 regulator _ s (by simp) hs c rest hc hms hf
  · exact vreg_set_mode_fails rc argv0 regulator l s hinv hs c rest hc hms hf
  · exact vreg_set_mode_fails rc argv0 regulator l s hinv hs c rest hc hms hf

theorem vreg_check_off_fails (h : Header) (rc : Call → Nat → Int) (argv0 : String)
    (regulator : drv_npm6001_vreg) (l : vreg_locals)
    (hinv : l.set_voltage = true → l.turn_on = true)
    (c : Call) (rest : List Call)
    (hc : (vreg_check_off h rc argv0 regulator l Effects.start).calls = c :: rest)
    (hms : c.is_mode_set = true) (hf : rc c 0 ≠ 0) :
    vreg_check_off h rc argv0 regulator l Effects.start =
      ⟨0, [shell_warn "Failed to set mode" []], [c]⟩ := by
  unfold vreg_check_off vreg_check_mode at hc ⊢
  split_ifs at hc ⊢
  · simp only [Effects.say, Effects.done, Effects.start] at hc
    cases hc
  · have := (vreg_check_voltage_fails h rc argv0 regulator
      { l with set_mode := false }
      (Effects.start.say (shell_warn "LDO regulators does not have mode selection" []))
      hinv rfl c rest hc hms hf).1
    cases this
  · exact (vreg_check_voltage_fails h rc argv0 regulator l Effects.start hinv rfl c rest hc
      hms hf).2

/-- C17, counterexample: on `DCDC3 pwm 1000` a mode-set that fails with -5, a code that is
not `-EINVAL`, ends the command after one call, while five calls are made when every call
succeeds. -/
theorem cmd_vreg_mode_failure_counterexample :
    (cmd_vreg header0 rc_mode_set_fails "DCDC3" ["pwm", "1000"]).calls ≠
      (cmd_vreg header0 rc_ok "DCDC3" ["pwm", "1000"]).calls ∧
    cmd_vreg header0 rc_mode_set_fails "DCDC3" ["pwm", "1000"] =
      ⟨0, [shell_warn "Failed to set mode" []],
       [drv_npm6001_vreg_dcdc_mode_set DRV_NPM6001_DCDC3 DRV_NPM6001_MODE_PWM]⟩ ∧
    (cmd_vreg header0 rc_ok "DCDC3" ["pwm", "1000"]).calls.length = 5 := by
  decide

/-- C17, amended: for every argument vector, the calls made with a driver whose mode-set
succeeds and whose voltage-set does not return `-EINVAL` are the calls made when every
call succeeds, whatever the disable, voltage-set and enable calls return otherwise; and
when the first call is a mode-set that fails, the command ends there: it returns 0, its
only message is the warning "Failed to set mode" and the mode-set is its only call. -/
theorem cmd_vreg_failures (h : Header) (rc : Call → Nat → Int) (argv0 : String)
    (args : List String) :
    ((∀ r m k, rc (drv_npm6001_vreg_dcdc_mode_set r m) k = 0) →
      (∀ r v k, rc (drv_npm6001_vreg_voltage_set r v) k ≠ -EINVAL) →
      (cmd_vreg h rc argv0 args).calls = (cmd_vreg h rc_ok argv0 args).calls) ∧
    (∀ c rest, (cmd_vreg h rc argv0 args).calls = c :: rest → c.is_mode_set = true →
      rc c 0 ≠ 0 →
      cmd_vreg h rc argv0 args = ⟨0, [shell_warn "Failed to set mode" []], [c]⟩) := by
  constructor
  · intro hm he
    exact cmd_vreg_success h rc argv0 args hm he
  · intro c rest hc hms hf
    cases args with
    | nil =>
      simp [cmd_vreg] at hc
    | cons a tail =>
      cases hr : vreg_of_name argv0 with
      | none =>
        have : (cmd_vreg h rc argv0 (a :: tail)).calls = [] := by
          unfold cmd_vreg
          simp only [hr]
          split_ifs <;> rfl
        rw [this] at hc
        cases hc
      | some regulator =>
        cases hs : vreg_scan (a :: tail) vreg_locals.init with
        | error t =>
          rw [cmd_vreg_rejected h rc argv0 regulator a t tail hr hs] at hc
          cases hc
        | ok l =>
          have hunf : cmd_vreg h rc argv0 (a :: tail) =
              vreg_check_off h rc argv0 regulator (vreg_resolve l) Effects.start := by
            unfold cmd_vreg
            simp only [hr, hs, List.length_cons]
            rw [if_neg (by omega)]
          rw [hunf] at hc ⊢
          exact vreg_check_off_fails h rc argv0 regulator _ (vreg_resolve_turn_on l) c rest hc
            hms hf

/-- C17, witness: on `DCDC3 pwm 1000` a driver whose disable calls fail makes the same
five calls as a driver that succeeds, and a driver whose mode-set fails ends the command
with the warning. -/
theorem cmd_vreg_failures_witness :
    (cmd_vreg header0 rc_disable_fails "DCDC3" ["pwm", "1000"]).calls =
      (cmd_vreg header0 rc_ok "DCDC3" ["pwm", "1000"]).calls ∧
    cmd_vreg header0 rc_mode_set_fails "DCDC3" ["pwm", "1000"] =
      ⟨0, [shell_warn "Failed to set mode" []],
       [drv_npm6001_vreg_dcdc_mode_set DRV_NPM6001_DCDC3 DRV_NPM6001_MODE_PWM]⟩ :=
  ⟨(cmd_vreg_failures header0 rc_disable_fails "DCDC3" ["pwm", "1000"]).1
      (fun _ _ _ => rfl)
      (fun _ _ _ => by simp [rc_disable_fails, Call.is_disable, EINVAL]),
   (cmd_vreg_failures header0 rc_mode_set_fails "DCDC3" ["pwm", "1000"]).2
      (drv_npm6001_vreg_dcdc_mode_set DRV_NPM6001_DCDC3 DRV_NPM6001_MODE_PWM) []
      (by decide) (by decide) (by decide)⟩

/-! ## The two disable calls of DCDC3 -/

theorem vreg_outer_disable_dcdc3 (rc : Call → Nat → Int) (argv0 : String) (l : vreg_locals)
    (s : Effects) (hsv : l.set_voltage = true) :
    ∃ s' : Effects,
      vreg_outer_disable rc argv0 DRV_NPM6001_DCDC3 l s =
        vreg_set_voltage rc argv0 DRV_NPM6001_DCDC3 l s' ∧
      s'.calls = s.calls ++ [drv_npm6001_vreg_disable DRV_NPM6001_DCDC3] := by
  unfold vreg_outer_disable
  simp only [hsv, true_and, if_true, Effects.call, Effects.say]
  split_ifs
  · exact ⟨_, rfl, rfl⟩
  · exact ⟨_, rfl, rfl⟩

theorem cmd_vreg_no_disable_before (h : Header) (rc : Call → Nat → Int) (argv0 : String)
    (args : List String) (hn : argv0 ≠ "DCDC3") :
    ∀ p y q, (cmd_vreg h rc argv0 args).calls = p ++ y :: q → y.is_voltage_set = true →
      ∀ c ∈ p, c.is_disable = false := by
  obtain ⟨M, D, V, F, hs, _, h2, _, h4, h5, h6, _, h8⟩ := cmd_vreg_shape h rc argv0 args
  have hD : D = [] := by
    by_contra hne
    exact hn (h4 hne).1
  subst hD
  intro p y q hdec hy
  rw [hs, List.append_nil, List.append_assoc] at hdec
  refine nothing_before Call.is_voltage_set Call.is_disable M (V ++ F) ?_ ?_ p q y hy hdec
  · intro c hc
    exact ⟨(mode_set_kind c (h2 c hc)).1, (mode_set_kind c (h2 c hc)).2.2⟩
  · intro c hc
    have hF : ∀ d ∈ F, d.is_voltage_set = false := by
      intro d hd
      rcases h8 d hd with hh | hh
      · exact (enable_kind d hh).2.1
      · exact (disable_kind d hh).2.1
    cases V with
    | nil => exact hF c (List.mem_of_mem_tail hc)
    | cons v V' =>
      have hV' : V' = [] := by
        simp only [List.length_cons] at h5
        exact List.length_eq_zero.mp (by omega)
      subst hV'
      exact hF c hc

/-- C18: on DCDC3, for every command whose last voltage token is accepted (before it tokens
the loop goes past, after it mode keywords and then nothing or an on/off/0 keyword; value
in 500..3300) and every driver in which the mode-set succeeds, the calls are: the mode-set
if any, then `drv_npm6001_vreg_disable (DCDC3)` twice, then the voltage-set, then at most
the enable.  The first disable is the call of the block of line 321, which hands over to
the voltage block with one more call, and the second is the call of the nested block of
line 330.  For every other name no disable call stands before a voltage-set. -/
theorem cmd_vreg_dcdc3_double_disable (h : Header) (rc : Call → Nat → Int) :
    (∀ pre mid rest t, (∀ a ∈ pre, is_accepted a) → ¬ is_mode t →
      500 ≤ to_uint16 (strtol t 0) → to_uint16 (strtol t 0) ≤ 3300 →
      (∀ a ∈ mid, is_mode a) →
      (rest = [] ∨ ∃ k post, rest = k :: post ∧ is_on_off k) →
      (∀ m k, rc (drv_npm6001_vreg_dcdc_mode_set DRV_NPM6001_DCDC3 m) k = 0) →
      ∃ M F : List Call,
        (cmd_vreg h rc "DCDC3" (pre ++ t :: (mid ++ rest))).calls =
          M ++ [drv_npm6001_vreg_disable DRV_NPM6001_DCDC3,
                drv_npm6001_vreg_disable DRV_NPM6001_DCDC3,
                drv_npm6001_vreg_voltage_set DRV_NPM6001_DCDC3 (to_uint16 (strtol t 0))] ++ F ∧
        M.length ≤ 1 ∧ (∀ c ∈ M, c.is_mode_set = true) ∧
        F.length ≤ 1 ∧ (∀ c ∈ F, c = drv_npm6001_vreg_enable DRV_NPM6001_DCDC3)) ∧
    (∀ argv0 l s, l.set_voltage = true →
      (∃ s' : Effects,
        vreg_outer_disable rc argv0 DRV_NPM6001_DCDC3 l s =
          vreg_set_voltage rc argv0 DRV_NPM6001_DCDC3 l s' ∧
        s'.calls = s.calls ++ [drv_npm6001_vreg_disable DRV_NPM6001_DCDC3]) ∧
      (vreg_inner_disable rc argv0 DRV_NPM6001_DCDC3 l s).2.calls =
        s.calls ++ [drv_npm6001_vreg_disable DRV_NPM6001_DCDC3]) ∧
    (∀ argv0 args, argv0 ≠ "DCDC3" →
      ∀ p y q, (cmd_vreg h rc argv0 args).calls = p ++ y :: q → y.is_voltage_set = true →
        ∀ c ∈ p, c.is_disable = false) := by
  refine ⟨?_, ?_, ?_⟩
  · intro pre mid rest t hpre ht hlo hhi hmid hrest hm
    have hrest' : rest = [] ∨ ∃ k post, rest = k :: post ∧
        ((k = "ON" ∨ k = "on") ∨ (is_off k ∧ (DRV_NPM6001_DCDC3 = DRV_NPM6001_DCDC3 ∨
          DRV_NPM6001_DCDC3 = DRV_NPM6001_LDO0 ∨ DRV_NPM6001_DCDC3 = DRV_NPM6001_LDO1))) := by
      rcases hrest with rfl | ⟨k, post, rfl, hk⟩
      · exact Or.inl rfl
      · refine Or.inr ⟨k, post, rfl, ?_⟩
        rcases hk with hk | hk | hk | hk | hk
        · exact Or.inl (Or.inl hk)
        · exact Or.inl (Or.inr hk)
        · exact Or.inr ⟨Or.inl hk, Or.inl rfl⟩
        · exact Or.inr ⟨Or.inr (Or.inl hk), Or.inl rfl⟩
        · exact Or.inr ⟨Or.inr (Or.inr hk), Or.inl rfl⟩
    obtain ⟨M, hM1, hM2, _, hc⟩ :=
      cmd_vreg_voltage_calls h rc "DCDC3" DRV_NPM6001_DCDC3 pre mid rest t (by decide) hpre ht
        (by omega) (show 500 % 65536 ≤ _ by omega) (show _ ≤ 3300 % 65536 by omega) hmid
        hrest' hm
    simp only [if_true, reduceCtorEq, if_false, ne_eq, not_false_eq_true, true_and] at hc
    refine ⟨M,
      (if rc (drv_npm6001_vreg_voltage_set DRV_NPM6001_DCDC3 (to_uint16 (strtol t 0)))
          (M.length + 2) = -EINVAL then []
       else [drv_npm6001_vreg_enable DRV_NPM6001_DCDC3]), ?_, hM1, hM2, ?_, ?_⟩
    · rw [hc]
      simp only [List.append_assoc, List.cons_append, List.nil_append]
    · split_ifs <;> simp
    · split_ifs <;> simp
  · intro argv0 l s hsv
    refine ⟨vreg_outer_disable_dcdc3 rc argv0 l s hsv, ?_⟩
    rw [vreg_inner_disable_calls]
    simp
  · intro argv0 args hn
    exact cmd_vreg_no_disable_before h rc argv0 args hn

/-- C18, witness: `DCDC3 pwm 1000` with a driver that succeeds, and `LDO0 2000`. -/
theorem cmd_vreg_dcdc3_double_disable_witness :
    (cmd_vreg header0 rc_ok "DCDC3" ["pwm", "1000"]).calls =
      [drv_npm6001_vreg_dcdc_mode_set DRV_NPM6001_DCDC3 DRV_NPM6001_MODE_PWM,
       drv_npm6001_vreg_disable DRV_NPM6001_DCDC3, drv_npm6001_vreg_disable DRV_NPM6001_DCDC3,
       drv_npm6001_vreg_voltage_set DRV_NPM6001_DCDC3 1000,
       drv_npm6001_vreg_enable DRV_NPM6001_DCDC3] ∧
    (∃ M F : List Call,
      (cmd_vreg header0 rc_ok "DCDC3" ["pwm", "1000"]).calls =
        M ++ [drv_npm6001_vreg_disable DRV_NPM6001_DCDC3,
              drv_npm6001_vreg_disable DRV_NPM6001_DCDC3,
              drv_npm6001_vreg_voltage_set DRV_NPM6001_DCDC3 1000] ++ F ∧
      M.length ≤ 1 ∧ (∀ c ∈ M, c.is_mode_set = true) ∧
      F.length ≤ 1 ∧ (∀ c ∈ F, c = drv_npm6001_vreg_enable DRV_NPM6001_DCDC3)) ∧
    (∀ c ∈ ([] : List Call), c.is_disable = false) :=
  ⟨by decide,
   (cmd_vreg_dcdc3_double_disable header0 rc_ok).1 ["pwm"] [] [] "1000" (by decide)
     (by decide) (by decide) (by decide) (by decide) (Or.inl rfl) (fun _ _ => rfl),
   (cmd_vreg_dcdc3_double_disable header0 rc_ok).2.2 "LDO0" ["2000"] (by decide) []
     (drv_npm6001_vreg_voltage_set DRV_NPM6001_LDO0 2000)
     [drv_npm6001_vreg_enable DRV_NPM6001_LDO0] (by decide) rfl⟩

/-! ## No disable on the rails that stay on -/

theorem on_off_calls_no_disable (regulator : drv_npm6001_vreg) (l : vreg_locals)
    (hoff : l.turn_off = false) : ∀ c ∈ on_off_calls regulator l, c.is_disable = false := by
  unfold on_off_calls
  rw [hoff]
  split_ifs <;> simp_all [Call.is_disable]

theorem final_calls_no_disable (rc : Call → Nat → Int) (regulator : drv_npm6001_vreg)
    (l : vreg_locals) (k : Nat) (hoff : l.turn_off = false) :
    ∀ c ∈ final_calls rc regulator l k, c.is_disable = false := by
  unfold final_calls
  split_ifs <;> first | exact on_off_calls_no_disable regulator l hoff | simp [Call.is_disable]

theorem disable_calls_no_disable (rc : Call → Nat → Int) (regulator : drv_npm6001_vreg)
    (l : vreg_locals) (k : Nat) (hn3 : regulator ≠ DRV_NPM6001_DCDC3)
    (hoff : l.turn_off = false) :
    ∀ c ∈ disable_calls rc regulator l k, c.is_disable = false := by
  intro c hc
  rw [disable_calls_groups, if_neg (fun hh => hn3 hh.2), List.nil_append] at hc
  rcases List.mem_append.mp hc with hc | hc
  · split_ifs at hc
    · rw [List.mem_singleton.mp hc]
      rfl
    · cases hc
  · exact final_calls_no_disable rc regulator l k hoff c hc

theorem mode_calls_no_disable (rc : Call → Nat → Int) (regulator : drv_npm6001_vreg)
    (l : vreg_locals) (k : Nat) (hn3 : regulator ≠ DRV_NPM6001_DCDC3)
    (hoff : l.turn_off = false) :
    ∀ c ∈ mode_calls rc regulator l k, c.is_disable = false := by
  intro c hc
  unfold mode_calls at hc
  split_ifs at hc
  · rw [List.mem_singleton.mp hc]
    rfl
  · rcases List.mem_cons.mp hc with rfl | hc
    · rfl
    · exact disable_calls_no_disable rc regulator l _ hn3 hoff c hc
  · exact disable_calls_no_disable rc regulator l _ hn3 hoff c hc

theorem checked_calls_always_on (h : Header) (rc : Call → Nat → Int)
    (regulator : drv_npm6001_vreg) (l : vreg_locals)
    (hreg : regulator = DRV_NPM6001_DCDC0 ∨ regulator = DRV_NPM6001_DCDC1 ∨
      regulator = DRV_NPM6001_DCDC2) :
    ∀ c ∈ checked_calls h rc regulator l, c.is_disable = false := by
  have hn3 : regulator ≠ DRV_NPM6001_DCDC3 := by
    rcases hreg with rfl | rfl | rfl <;> decide
  unfold checked_calls
  split_ifs with h1 h2
  · intro c hc
    cases hc
  · intro c hc
    cases hc
  · have hoff : l.turn_off = false := by
      cases ht : l.turn_off with
      | false => rfl
      | true => exact absurd ⟨ht, hreg⟩ h1
    exact mode_calls_no_disable rc regulator _ 0 hn3 hoff

/-- C19: for DCDC0, DCDC1 and DCDC2, every token list and every driver, no call of the
command is a `drv_npm6001_vreg_disable`. -/
theorem cmd_vreg_always_on_no_disable (h : Header) (rc : Call → Nat → Int) (argv0 : String)
    (args : List String) (hname : argv0 = "DCDC0" ∨ argv0 = "DCDC1" ∨ argv0 = "DCDC2") :
    ∀ c ∈ (cmd_vreg h rc argv0 args).calls, c.is_disable = false := by
  intro c hc
  rcases cmd_vreg_calls_cases h rc argv0 args with he | ⟨regulator, l, hr, _, he⟩
  · rw [he] at hc
    cases hc
  · rw [he] at hc
    have hreg : regulator = DRV_NPM6001_DCDC0 ∨ regulator = DRV_NPM6001_DCDC1 ∨
        regulator = DRV_NPM6001_DCDC2 := by
      rcases hname with rfl | rfl | rfl
      · exact Or.inl (Option.some.inj hr).symm
      · exact Or.inr (Or.inl (Option.some.inj hr).symm)
      · exact Or.inr (Or.inr (Option.some.inj hr).symm)
    exact checked_calls_always_on h rc regulator _ hreg c hc

/-- C19, witness: `DCDC2 pwm 1300 on` with a driver in which every call succeeds. -/
theorem cmd_vreg_always_on_no_disable_witness :
    (cmd_vreg header0 rc_ok "DCDC2" ["pwm", "1300", "on"]).calls =
      [drv_npm6001_vreg_dcdc_mode_set DRV_NPM6001_DCDC2 DRV_NPM6001_MODE_PWM,
       drv_npm6001_vreg_voltage_set DRV_NPM6001_DCDC2 1300,
       drv_npm6001_vreg_enable DRV_NPM6001_DCDC2] ∧
    ∀ c ∈ (cmd_vreg header0 rc_ok "DCDC2" ["pwm", "1300", "on"]).calls, c.is_disable = false :=
  ⟨by decide,
   cmd_vreg_always_on_no_disable header0 rc_ok "DCDC2" ["pwm", "1300", "on"]
     (Or.inr (Or.inr rfl))⟩

/-! ## The locals after the argument loop -/

theorem vreg_scan_invariant (args : List String) (l0 l : vreg_locals)
    (h0 : l0.set_voltage = true → l0.voltage ≠ 0)
    (hs : vreg_scan args l0 = Except.ok l) :
    (l.set_voltage = true → l.voltage ≠ 0) ∧
    (l.turn_off = true → l0.turn_off = true ∨ ∃ a ∈ args, is_off a) := by
  induction args generalizing l0 with
  | nil =>
    simp only [vreg_scan, Except.ok.injEq] at hs
    subst hs
    exact ⟨h0, fun ho => Or.inl ho⟩
  | cons a rest ih =>
    unfold vreg_scan at hs
    split_ifs at hs with h1 h2 h3 h4 h5 h6
    · simp only [Except.ok.injEq] at hs
      subst hs
      exact ⟨h0, fun ho => Or.inl ho⟩
    · simp only [Except.ok.injEq] at hs
      subst hs
      exact ⟨h0, fun _ => Or.inr ⟨a, List.mem_cons_self a rest, by
        rcases h2 with hh | hh
        · exact Or.inl hh
        · exact Or.inr (Or.inl hh)⟩⟩
    · simp only [Except.ok.injEq] at hs
      subst hs
      exact ⟨h0, fun _ => Or.inr ⟨a, List.mem_cons_self a rest, Or.inr (Or.inr h3)⟩⟩
    · obtain ⟨i1, i2⟩ :=
        ih { l0 with set_mode := true, mode := DRV_NPM6001_MODE_ULP } h0 hs
      refine ⟨i1, fun ho => ?_⟩
      rcases i2 ho with hh | ⟨b, hb, hbo⟩
      · exact Or.inl hh
      · exact Or.inr ⟨b, List.mem_cons_of_mem a hb, hbo⟩
    · obtain ⟨i1, i2⟩ :=
        ih { l0 with set_mode := true, mode := DRV_NPM6001_MODE_PWM } h0 hs
      refine ⟨i1, fun ho => ?_⟩
      rcases i2 ho with hh | ⟨b, hb, hbo⟩
      · exact Or.inl hh
      · exact Or.inr ⟨b, List.mem_cons_of_mem a hb, hbo⟩
    · obtain ⟨i1, i2⟩ := ih _ (fun _ => h6) hs
      refine ⟨i1, fun ho => ?_⟩
      rcases i2 ho with hh | ⟨b, hb, hbo⟩
      · exact Or.inl hh
      · exact Or.inr ⟨b, List.mem_cons_of_mem a hb, hbo⟩

/-- C20: whenever the argument loop ends without the early return, with locals `l`,
`set_voltage` implies that the stored voltage is not zero; so the condition
`set_voltage && voltage == 0` of line 244 is false, line 244-249 only set `turn_on` when
`set_voltage` is set, and `turn_off`, after the loop and after line 249, is set only if
some token is `off`, `OFF` or `0`. -/
theorem vreg_scan_voltage_nonzero (args : List String) (l : vreg_locals)
    (hs : vreg_scan args vreg_locals.init = Except.ok l) :
    (l.set_voltage = true → l.voltage ≠ 0) ∧
    ¬ (l.set_voltage = true ∧ l.voltage = 0) ∧
    vreg_resolve l = (if l.set_voltage = true then { l with turn_on := true } else l) ∧
    (l.turn_off = true → ∃ a ∈ args, is_off a) ∧
    ((vreg_resolve l).turn_off = true → ∃ a ∈ args, is_off a) := by
  obtain ⟨i1, i2⟩ := vreg_scan_invariant args vreg_locals.init l (by simp [vreg_locals.init]) hs
  have hbranch : ¬ (l.set_voltage = true ∧ l.voltage = 0) := fun hh => i1 hh.1 hh.2
  have hres : vreg_resolve l =
      (if l.set_voltage = true then { l with turn_on := true } else l) := by
    unfold vreg_resolve
    rw [if_neg hbranch]
  have hoff : l.turn_off = true → ∃ a ∈ args, is_off a := by
    intro ho
    rcases i2 ho with hh | hh
    · simp [vreg_locals.init] at hh
    · exact hh
  refine ⟨i1, hbranch, hres, hoff, ?_⟩
  intro ho
  apply hoff
  rw [hres] at ho
  split_ifs at ho <;> exact ho

/-- C20, witness: the loop on `pwm 1000 off 7`. -/
theorem vreg_scan_voltage_nonzero_witness :
    vreg_scan ["pwm", "1000", "off", "7"] vreg_locals.init =
      Except.ok ⟨DRV_NPM6001_MODE_PWM, 1000, true, true, false, true⟩ ∧
    (1000 : Nat) ≠ 0 ∧ ∃ a ∈ ["pwm", "1000", "off", "7"], is_off a :=
  ⟨rfl,
   (vreg_scan_voltage_nonzero ["pwm", "1000", "off", "7"]
     ⟨DRV_NPM6001_MODE_PWM, 1000, true, true, false, true⟩ rfl).1 rfl,
   (vreg_scan_voltage_nonzero ["pwm", "1000", "off", "7"]
     ⟨DRV_NPM6001_MODE_PWM, 1000, true, true, false, true⟩ rfl).2.2.2.1 rfl⟩

end Npm6001Shell
